import Mathlib

/-!
Verification development for the ServiceNow MCP server repository.

The Python sources are shallowly embedded:
* JSON values (Python dicts/lists as produced by `json` parsing) become the
  inductive `Json`; Python `dict` is an insertion-ordered association list.
* JWT tokens are structured values `Token` carrying the signed payload, the
  signing key and the algorithm name; signature verification of the HMAC
  scheme is modelled ideally (a signature verifies exactly when the same key
  and algorithm are used).
* Timestamps (`datetime.timestamp()` floats) are modelled as integer seconds.
* Fallible Python code (code that may raise) returns `Except String`, the
  error string being the exception message.
* Third-party calls (the `jwt` library, the ServiceNow REST client) are
  modelled from their documented behaviour as used at the call sites, or are
  taken as oracle parameters where the repository treats them as opaque.
-/

set_option linter.unusedVariables false

namespace SnowMCP

/-- JSON-like values: the data manipulated by the server tools.
Python `None`/`bool`/int-valued numbers/`str`/`list`/`dict` (insertion
ordered association list). -/
inductive Json where
  | null : Json
  | bool (b : Bool) : Json
  | num (n : Int) : Json
  | str (s : String) : Json
  | arr (elems : List Json) : Json
  | obj (fields : List (String × Json)) : Json

/-- Python `d.get(key)`: first binding of `key` in an association list. -/
def dictGet (fields : List (String × Json)) (key : String) : Option Json :=
  match fields with
  | [] => none
  | (k, v) :: rest => if k = key then some v else dictGet rest key

/-- Python `d[key] = v` on an insertion-ordered dict: replace the first
binding in place, or append a new one. -/
def dictSet (fields : List (String × Json)) (key : String) (v : Json) :
    List (String × Json) :=
  match fields with
  | [] => [(key, v)]
  | (k, w) :: rest =>
      if k = key then (key, v) :: rest else (k, w) :: dictSet rest key v

/-- Python truthiness of a JSON value (`if x:`). -/
def Json.truthy : Json → Bool
  | .null => false
  | .bool b => b
  | .num n => decide (n ≠ 0)
  | .str s => decide (s ≠ "")
  | .arr elems => !elems.isEmpty
  | .obj fields => !fields.isEmpty

/-- Field access on a JSON object (`none` on non-objects). -/
def jsonField (j : Json) (key : String) : Option Json :=
  match j with
  | .obj fields => dictGet fields key
  | _ => none

/-! ## jwt_auth.py — the JWT authentication module -/

/-- Configuration of `JWTAuthManager.__init__` (jwt_auth.py:29-45): secret
key, algorithm, expiry windows and the issuer/audience claims, all read from
the environment (with the listed defaults). -/
structure JWTConfig where
  secret_key : String
  algorithm : String
  token_expiry_hours : Int
  refresh_token_expiry_days : Int
  issuer : String
  audience : String

/-- The three entries `generate_token` reads from its `user_info` dict via
`.get` (jwt_auth.py:71-76); a missing key is `Json.null` (Python `None`). -/
structure UserInfo where
  username : Json
  instance_url : Json
  client_id : Json

/-- A JWT as produced by `jwt.encode(payload, key, algorithm)`: the encoded
token determines the payload together with the signing key and algorithm.
HMAC signatures are modelled ideally: verification under `(key, alg)`
succeeds exactly when the token was signed with that same pair. -/
structure Token where
  payload : List (String × Json)
  sig_key : String
  sig_alg : String

/-- Seconds added to `iat` to obtain `exp` (jwt_auth.py:62-65):
`timedelta(days=refresh_token_expiry_days)` for a refresh token and
`timedelta(hours=token_expiry_hours)` otherwise. -/
def expirySeconds (cfg : JWTConfig) (token_type : String) : Int :=
  if token_type = "refresh" then cfg.refresh_token_expiry_days * 86400
  else cfg.token_expiry_hours * 3600

/-- The payload dict built by `JWTAuthManager.generate_token`
(jwt_auth.py:68-77), in source order. -/
def generatePayload (cfg : JWTConfig) (user_info : UserInfo)
    (token_type : String) (now : Int) : List (String × Json) :=
  [ ("iss", .str cfg.issuer),
    ("aud", .str cfg.audience),
    ("sub", user_info.username),
    ("iat", .num now),
    ("exp", .num (now + expirySeconds cfg token_type)),
    ("type", .str token_type),
    ("snow_instance", user_info.instance_url),
    ("client_id", user_info.client_id) ]

/-- Embedding of `JWTAuthManager.generate_token` (jwt_auth.py:47-87): builds the payload
at the current time `now` and signs it with the manager's key/algorithm. -/
def generate_token (cfg : JWTConfig) (user_info : UserInfo)
    (token_type : String) (now : Int) : Token :=
  { payload := generatePayload cfg user_info token_type now,
    sig_key := cfg.secret_key,
    sig_alg := cfg.algorithm }

/-- Does the token's signature verify under the manager's key and
algorithm? (Ideal model of HMAC verification inside `jwt.decode`.) -/
def sigOk (cfg : JWTConfig) (t : Token) : Bool :=
  decide (t.sig_key = cfg.secret_key) && decide (t.sig_alg = cfg.algorithm)

/-- Does an `aud` claim value match the expected audience? Per the JWT
library: a string matches by equality; a list of strings matches when it
contains the audience; anything else does not match. -/
def audMatches (v : Json) (expected : String) : Bool :=
  match v with
  | .str s => decide (s = expected)
  | .arr elems =>
      (elems.all fun e => match e with | .str _ => true | _ => false) &&
      (elems.any fun e => match e with | .str s => decide (s = expected) | _ => false)
  | _ => false

/-- The `aud` claim is present and matches the configured audience. -/
def audOk (cfg : JWTConfig) (t : Token) : Bool :=
  match dictGet t.payload "aud" with
  | some v => audMatches v cfg.audience
  | none => false

/-- The `iss` claim is present and equals the configured issuer. -/
def issOk (cfg : JWTConfig) (t : Token) : Bool :=
  match dictGet t.payload "iss" with
  | some (.str s) => decide (s = cfg.issuer)
  | _ => false

/-- Errors of the modelled `jwt.decode`: `ExpiredSignatureError`,
`ImmatureSignatureError` and the rest of the `InvalidTokenError`
family. -/
inductive JwtError where
  | expiredSignature
  | immatureSignature
  | invalidAudience
  | invalidIssuer
  | signatureVerificationFailed
  | malformedIatClaim
  | malformedNbfClaim
  | malformedExpClaim

/-- Exception message text produced for each decode error, following the
`except` clauses of `validate_token` (jwt_auth.py:120-128): an
`ExpiredSignatureError` becomes "JWT token has expired" and the other
`InvalidTokenError`s become "Invalid JWT token: ...". -/
def JwtError.message : JwtError → String
  | .expiredSignature => "JWT token has expired"
  | .immatureSignature => "Invalid JWT token: The token is not yet valid (nbf)"
  | .invalidAudience => "Invalid JWT token: Invalid audience"
  | .invalidIssuer => "Invalid JWT token: Invalid issuer"
  | .signatureVerificationFailed => "Invalid JWT token: Signature verification failed"
  | .malformedIatClaim => "Invalid JWT token: Issued At claim (iat) must be an integer."
  | .malformedNbfClaim => "Invalid JWT token: Not Before claim (nbf) must be an integer."
  | .malformedExpClaim => "Invalid JWT token: Expiration Time claim (exp) must be an integer."

/-- The library's default `iat` validation, run when the claim is present:
it must be a numeric timestamp, and nothing else is checked.  (Python's
`int()` additionally accepts bools and integer-shaped strings; NumericDate
claims are modelled as JSON numbers, so those corners are outside the
embedding.) -/
def checkIat (p : List (String × Json)) : Option JwtError :=
  match dictGet p "iat" with
  | none => none
  | some (.num _) => none
  | some _ => some .malformedIatClaim

/-- The library's default `nbf` validation, run when the claim is present:
a non-numeric value is a decode error, and a numeric one lying in the
future raises `ImmatureSignatureError` (`nbf > now` with zero leeway). -/
def checkNbf (p : List (String × Json)) (now : Int) : Option JwtError :=
  match dictGet p "nbf" with
  | none => none
  | some (.num n) => if n > now then some .immatureSignature else none
  | some _ => some .malformedNbfClaim

/-- The library's default `exp` validation, run when the claim is present:
a non-numeric value is a decode error, and a numeric one in the past
raises `ExpiredSignatureError`.  The strict comparison `now > exp` is the
semantics of the PyJWT versions from the floor the repository pins
(`PyJWT>=2.0.0`; releases before 2.6 accept a token at the exact expiry
second) and is also the comparison the module's own re-check uses
(jwt_auth.py:114). -/
def checkExp (p : List (String × Json)) (now : Int) : Option JwtError :=
  match dictGet p "exp" with
  | none => none
  | some (.num e) => if now > e then some .expiredSignature else none
  | some _ => some .malformedExpClaim

/-- Model of the third-party `jwt.decode(token, key, algorithms=[alg],
audience=..., issuer=...)` call at jwt_auth.py:104-110 with the library's
default options: verify the signature, then the registered claims it
validates by default and in its order — `iat` format, `nbf`, `exp` — then
the issuer and the audience. -/
def jwtDecode (cfg : JWTConfig) (t : Token) (now : Int) :
    Except JwtError (List (String × Json)) :=
  if sigOk cfg t = false then .error .signatureVerificationFailed
  else
    match checkIat t.payload with
    | some err => .error err
    | none =>
        match checkNbf t.payload now with
        | some err => .error err
        | none =>
            match checkExp t.payload now with
            | some err => .error err
            | none =>
                if issOk cfg t = false then .error .invalidIssuer
                else if audOk cfg t = false then .error .invalidAudience
                else .ok t.payload

/-- The manual expiry re-check of `validate_token` (jwt_auth.py:112-115):
`if exp_timestamp and now > exp_timestamp: raise ExpiredSignatureError`
(a falsy `exp` skips the check). -/
def expRecheck (payload : List (String × Json)) (now : Int) :
    Except String (List (String × Json)) :=
  match dictGet payload "exp" with
  | some (.num e) =>
      if e ≠ 0 ∧ now > e then .error "JWT token has expired" else .ok payload
  | _ => .ok payload

/-- Embedding of `JWTAuthManager.validate_token` (jwt_auth.py:89-128): decode with the
manager's key, algorithm, audience and issuer, then re-check expiry by the
simple timestamp comparison `now > exp`, and translate the library errors
into exception messages. -/
def validate_token (cfg : JWTConfig) (t : Token) (now : Int) :
    Except String (List (String × Json)) :=
  match jwtDecode cfg t now with
  | .error e => .error e.message
  | .ok payload => expRecheck payload now

/-- The token bundle returned by `refresh_token` and
`create_initial_tokens`: new access and refresh tokens plus the bearer
metadata. -/
structure TokenBundle where
  access_token : Token
  refresh_token : Token
  token_type : String
  expires_in : Int

/-- The body of `refresh_token` after validation (jwt_auth.py:144-166):
require the `type` claim to be `"refresh"`, rebuild the user info from the
payload and issue a fresh access/refresh pair. -/
def refreshFromPayload (cfg : JWTConfig) (payload : List (String × Json))
    (now : Int) : Except String TokenBundle :=
  match dictGet payload "type" with
  | some (.str "refresh") =>
      let user_info : UserInfo :=
        { username := (dictGet payload "sub").getD .null,
          instance_url := (dictGet payload "snow_instance").getD .null,
          client_id := (dictGet payload "client_id").getD .null }
      .ok { access_token := generate_token cfg user_info "access" now,
            refresh_token := generate_token cfg user_info "refresh" now,
            token_type := "Bearer",
            expires_in := cfg.token_expiry_hours * 3600 }
  | _ => .error "Failed to refresh token: Invalid token type. Refresh token required."

/-- Embedding of `JWTAuthManager.refresh_token` (jwt_auth.py:130-170): validate the
presented token and issue the fresh pair.  Errors raised inside are
wrapped as "Failed to refresh token: ...". -/
def refresh_token (cfg : JWTConfig) (t : Token) (now : Int) :
    Except String TokenBundle :=
  match validate_token cfg t now with
  | .error e => .error ("Failed to refresh token: " ++ e)
  | .ok payload => refreshFromPayload cfg payload now

/-- Result of `get_token_info` (jwt_auth.py:192-201).  The `isoformat`
strings are modelled by the underlying timestamps. -/
structure TokenInfo where
  username : Json
  token_type : Json
  instance_url : Json
  issued_at : Option Int
  expires_at : Option Int
  is_expired : Bool
  issuer : Json
  audience : Json

/-- The `datetime.fromtimestamp(x) if x else None` idiom of
jwt_auth.py:187,190: a missing or falsy claim yields `none`, a numeric one
yields its value, and a truthy non-numeric one raises (`fromtimestamp`
rejects it).  Python booleans are ints, so `True` reads as 1. -/
def timestampField (payload : List (String × Json)) (key : String) :
    Except String (Option Int) :=
  match dictGet payload key with
  | none => .ok none
  | some v =>
      if v.truthy = false then .ok none
      else
        match v with
        | .num e => .ok (some e)
        | .bool _ => .ok (some 1)
        | _ => .error "Failed to get token info: invalid timestamp"

/-- Embedding of `JWTAuthManager.get_token_info` (jwt_auth.py:172-205): decode without
signature verification (the payload is read directly, the signature and key
are ignored) and report the claims; `is_expired` is `exp < now` when an
expiry is present and `True` otherwise. -/
def get_token_info (t : Token) (now : Int) : Except String TokenInfo :=
  match timestampField t.payload "exp" with
  | .error e => .error e
  | .ok exp_dt =>
      match timestampField t.payload "iat" with
      | .error e => .error e
      | .ok iat_dt =>
          .ok { username := (dictGet t.payload "sub").getD .null,
                token_type := (dictGet t.payload "type").getD .null,
                instance_url := (dictGet t.payload "snow_instance").getD .null,
                issued_at := iat_dt,
                expires_at := exp_dt,
                is_expired := match exp_dt with
                  | some e => decide (e < now)
                  | none => true,
                issuer := (dictGet t.payload "iss").getD .null,
                audience := (dictGet t.payload "aud").getD .null }

/-- Embedding of `create_initial_tokens` (jwt_auth.py:210-248): build a user-info dict
from the credentials and issue an initial access/refresh pair (the password
is accepted but not used beyond this call). -/
def create_initial_tokens (cfg : JWTConfig) (username password instance_url
    client_id : String) (now : Int) : TokenBundle :=
  let user_info : UserInfo :=
    { username := .str username,
      instance_url := .str instance_url,
      client_id := .str client_id }
  { access_token := generate_token cfg user_info "access" now,
    refresh_token := generate_token cfg user_info "refresh" now,
    token_type := "Bearer",
    expires_in := cfg.token_expiry_hours * 3600 }

/-! ## HTML sanitization pipeline of `search_knowledge_base`
(server.py:262-327).  The character scanners are written with an explicit
fuel argument (always called with fuel = length of the input, which the
recursion never exhausts) so that they are structural and computable. -/

/-- Python `html.unescape`, modelled for the five predefined XML entities
(`&amp;` `&lt;` `&gt;` `&quot;` `&#39;`); other text, including other
ampersands, passes through.  Single pass, as in Python. -/
def unescapeFuel : Nat → List Char → List Char
  | 0, cs => cs
  | _ + 1, [] => []
  | fuel + 1, c :: rest =>
      if c = '&' then
        if ['a','m','p',';'].isPrefixOf rest then
          '&' :: unescapeFuel fuel (rest.drop 4)
        else if ['l','t',';'].isPrefixOf rest then
          '<' :: unescapeFuel fuel (rest.drop 3)
        else if ['g','t',';'].isPrefixOf rest then
          '>' :: unescapeFuel fuel (rest.drop 3)
        else if ['q','u','o','t',';'].isPrefixOf rest then
          '"' :: unescapeFuel fuel (rest.drop 5)
        else if ['#','3','9',';'].isPrefixOf rest then
          '\'' :: unescapeFuel fuel (rest.drop 4)
        else c :: unescapeFuel fuel rest
      else c :: unescapeFuel fuel rest

/-- Model of `html.unescape(s)` (server.py:281,312). -/
def htmlUnescape (s : String) : String :=
  ⟨unescapeFuel s.data.length s.data⟩

/-- Scan for the next `>` and return the characters after it. -/
def afterGt : List Char → Option (List Char)
  | [] => none
  | '>' :: r => some r
  | _ :: r => afterGt r

/-- Given the characters after a `<`, find the end of a tag match for the
regex `<[^>]+>`: at least one non-`>` character followed by `>`; returns
the remainder after the closing `>`. -/
def findTagEnd (cs : List Char) : Option (List Char) :=
  match cs with
  | [] => none
  | '>' :: _ => none
  | _ :: rest => afterGt rest

/-- Model of `re.sub(r'<[^>]+>', '', s)` (server.py:284,313): left-to-right scan
removing each tag match. -/
def stripTagsFuel : Nat → List Char → List Char
  | 0, cs => cs
  | _ + 1, [] => []
  | fuel + 1, c :: rest =>
      if c = '<' then
        match findTagEnd rest with
        | some remaining => stripTagsFuel fuel remaining
        | none => c :: stripTagsFuel fuel rest
      else c :: stripTagsFuel fuel rest

def stripTags (s : String) : String :=
  ⟨stripTagsFuel s.data.length s.data⟩

/-- The characters of the regex class `\s` on ASCII text. -/
def isPySpace (c : Char) : Bool :=
  c = ' ' || c = '\t' || c = '\n' || c = '\r' || c = '\x0b' || c = '\x0c'

/-- Model of `re.sub(r'\s+', ' ', s)` (server.py:287,314): each maximal whitespace
run becomes a single space. -/
def collapseWsFuel : Nat → List Char → List Char
  | 0, cs => cs
  | _ + 1, [] => []
  | fuel + 1, c :: rest =>
      if isPySpace c then ' ' :: collapseWsFuel fuel (rest.dropWhile isPySpace)
      else c :: collapseWsFuel fuel rest

/-- Model of `.strip()` after the whitespace collapse: drop leading and trailing
whitespace. -/
def stripEnds (cs : List Char) : List Char :=
  ((cs.dropWhile isPySpace).reverse.dropWhile isPySpace).reverse

def collapseWs (s : String) : String :=
  ⟨stripEnds (collapseWsFuel s.data.length s.data)⟩

/-- Model of `re.sub(r'[\x00-\x1f\x7f-\x9f]', '', s)` (server.py:290,315). -/
def stripControl (s : String) : String :=
  ⟨s.data.filter fun c => !(c.toNat ≤ 0x1f || (0x7f ≤ c.toNat && c.toNat ≤ 0x9f))⟩

/-- Length cap (server.py:293-294,317-318): over `maxLen` characters are
truncated and an ellipsis is appended. -/
def truncateContent (maxLen : Nat) (s : String) : String :=
  if s.length > maxLen then ⟨s.data.take maxLen⟩ ++ "..." else s

/-- The full cleaning pipeline applied to one content string
(server.py:281-294 for `text` with cap 1000, 312-318 for the other fields
with cap 500): unescape entities, strip tags, collapse whitespace and
strip, remove control characters, truncate. -/
def cleanContent (maxLen : Nat) (s : String) : String :=
  truncateContent maxLen (stripControl (collapseWs (stripTags (htmlUnescape s))))

/-- Names of the article fields the sanitizer rewrites. -/
def sanitizedFieldNames : List String :=
  ["text", "short_description", "meta_description", "description"]

/-- Sanitize one dict-valued field of an article (server.py:271-299 for
`text`, 304-323 for the loop fields): when the field is present, is a dict
and its `value` entry is a truthy string, both `value` and `display_value`
are replaced by the cleaned content; a falsy `value` leaves the field
untouched; a truthy non-string `value` raises (the regex call rejects it),
which the tool's outer `except` turns into an error response. -/
def sanitizeField (fields : List (String × Json)) (name : String)
    (maxLen : Nat) : Except String (List (String × Json)) :=
  match dictGet fields name with
  | some (.obj sub) =>
      match dictGet sub "value" with
      | some (.str s) =>
          if s = "" then .ok fields
          else
            let c := cleanContent maxLen s
            .ok (dictSet fields name
              (.obj (dictSet (dictSet sub "value" (.str c)) "display_value" (.str c))))
      | some v =>
          if v.truthy then .error "expected string or bytes-like object"
          else .ok fields
      | none => .ok fields
  | _ => .ok fields

/-- The four field sanitizations of one dict article in source order
(server.py:271-323): `text` with cap 1000, then the loop over
`short_description`, `meta_description`, `description` with cap 500. -/
def sanitizeArticleFields (fields : List (String × Json)) :
    Except String (List (String × Json)) :=
  match sanitizeField fields "text" 1000 with
  | .error e => .error e
  | .ok f1 =>
      match sanitizeField f1 "short_description" 500 with
      | .error e => .error e
      | .ok f2 =>
          match sanitizeField f2 "meta_description" 500 with
          | .error e => .error e
          | .ok f3 =>
              match sanitizeField f3 "description" 500 with
              | .error e => .error e
              | .ok f4 => .ok f4

/-- Sanitize one article (server.py:266-327): dict articles get their
`text` field cleaned with cap 1000 and the three description fields with
cap 500; non-dict articles are appended unchanged. -/
def sanitizeArticle (article : Json) : Except String Json :=
  match article with
  | .obj fields =>
      match sanitizeArticleFields fields with
      | .error e => .error e
      | .ok f4 => .ok (.obj f4)
  | other => .ok other

/-- The sanitization loop over all articles (server.py:263-327): each
article is sanitized and appended in order; the first raise aborts the
tool body. -/
def sanitizeArticles : List Json → Except String (List Json)
  | [] => .ok []
  | a :: rest =>
      match sanitizeArticle a with
      | .error e => .error e
      | .ok b =>
          match sanitizeArticles rest with
          | .error e => .error e
          | .ok bs => .ok (b :: bs)

/-! ## server.py — connection handling and the four MCP tools -/

/-- The environment variables read by server.py (os.getenv results). -/
structure ServerEnv where
  instance_url : Option String
  username : Option String
  password : Option String
  client_id : Option String
  client_secret : Option String

/-- Python truthiness of an `os.getenv` result (`None` and `""` are
falsy). -/
def optTruthy : Option String → Bool
  | none => false
  | some s => decide (s ≠ "")

/-- Embedding of `get_snow_connection` (server.py:64-111) over the module-global
`snow_connection` (`Option Nat`, an abstract handle): when a connection is
already stored it is returned unchanged; otherwise the credentials are
checked (`all([instance_url, username, password])`) and the vendor
constructor — the oracle `mkConn` — is invoked, storing the handle on
success.  The result pairs the handle with the new global state. -/
def get_snow_connection (env : ServerEnv) (mkConn : Except String Nat)
    (s : Option Nat) : Except String (Nat × Option Nat) :=
  match s with
  | some c => .ok (c, some c)
  | none =>
      if !(optTruthy env.instance_url && optTruthy env.username &&
           optTruthy env.password) then
        .error "Missing ServiceNow credentials. Please set SERVICENOW_INSTANCE_URL, SERVICENOW_USERNAME, and SERVICENOW_PASSWORD environment variables."
      else
        match mkConn with
        | .ok c => .ok (c, some c)
        | .error e => .error ("Failed to create ServiceNow connection: " ++ e)

/-- The global state after a call to `get_snow_connection`: unchanged when
the call raised, otherwise the state the call returned. -/
def connStateAfter (env : ServerEnv) (mkConn : Except String Nat)
    (s : Option Nat) : Option Nat :=
  match get_snow_connection env mkConn s with
  | .ok (_, s') => s'
  | .error _ => s

/-- The `SimpleParams` object passed to `list_articles`
(server.py:204-226). -/
structure ListParams where
  limit : Int
  offset : Int
  query : Option String
  category : Option String

/-- Oracle for the vendor ServiceNow client object: the methods the tools
invoke on the connection, each returning its value or raising. -/
structure SnowAPI where
  get_table_with_offset : String → Int → Option String → Except String (Json × Int)
  list_articles : ListParams → Except String Json
  get_article : String → Except String Json
  has_test_connection : Bool
  test_connection_result : Except String Json
  get_table : String → Int → Except String (Json × Json × Int)

/-- The uniform error response every tool builds in its `except` clause:
`{"success": False, "error": str(e), "timestamp": ...}`. -/
def errorResult (msg ts : String) : Json :=
  .obj [("success", .bool false), ("error", .str msg), ("timestamp", .str ts)]

/-- Model of `response.get(key, [])` restricted to JSON-array values (the shape the
ServiceNow table API returns); a missing key yields the empty default. -/
def jsonGetList (resp : Json) (key : String) : List Json :=
  match resp with
  | .obj fields =>
      match dictGet fields key with
      | some (.arr elems) => elems
      | _ => []
  | _ => []

/-- Model of `articles_response.get("success", False)` truthiness
(server.py:231). -/
def responseSuccess (resp : Json) : Bool :=
  match resp with
  | .obj fields =>
      match dictGet fields "success" with
      | some v => v.truthy
      | none => false
  | _ => false

/-- Model of `response.get("message", default)` as the exception text raised when a
client response reports failure (server.py:232,368). -/
def responseMessage (resp : Json) (dflt : String) : String :=
  match resp with
  | .obj fields =>
      match dictGet fields "message" with
      | some (.str m) => m
      | _ => dflt
  | _ => dflt

/-- The query fragments of `get_servicenow_incidents` (server.py:141-149),
appended for each truthy argument. -/
def incidentQueryParts (state priority assignment_group caller_id :
    Option String) : List String :=
  (if optTruthy state then ["state=" ++ state.getD ""] else []) ++
  (if optTruthy priority then ["priority=" ++ priority.getD ""] else []) ++
  (if optTruthy assignment_group then
    ["assignment_group.name=" ++ assignment_group.getD ""] else []) ++
  (if optTruthy caller_id then ["caller_id.email=" ++ caller_id.getD ""] else [])

/-- Model of `"&".join(query_parts) if query_parts else None` (server.py:151). -/
def incidentExtraParams (state priority assignment_group caller_id :
    Option String) : Option String :=
  match incidentQueryParts state priority assignment_group caller_id with
  | [] => none
  | parts => some (String.intercalate "&" parts)

/-- The `get_servicenow_incidents` tool (server.py:116-181): obtain the
connection, query the incident table, require HTTP 200, and answer with the
result list and its count; every raise is converted to the uniform error
response.  Returns the response together with the global connection state
after the call. -/
def get_servicenow_incidents (env : ServerEnv) (mkConn : Except String Nat)
    (api : SnowAPI) (s : Option Nat)
    (state priority assignment_group caller_id : Option String)
    (limit : Int) (ts : String) : Json × Option Nat :=
  match get_snow_connection env mkConn s with
  | .error e => (errorResult e ts, s)
  | .ok (_, s') =>
      match api.get_table_with_offset "incident" limit
          (incidentExtraParams state priority assignment_group caller_id) with
      | .error e => (errorResult e ts, s')
      | .ok (resp, status) =>
          if status ≠ 200 then
            (errorResult ("Failed to retrieve incidents: HTTP " ++ toString status) ts, s')
          else
            let incidents := jsonGetList resp "result"
            (.obj [("success", .bool true),
                   ("count", .num incidents.length),
                   ("incidents", .arr incidents),
                   ("timestamp", .str ts)], s')

/-- Fallback scan of server.py:253-260: the first value that is a
non-empty JSON list whose head is a dict. -/
def firstDictList : List (String × Json) → List Json
  | [] => []
  | (_, .arr (Json.obj f :: rest)) :: _ => Json.obj f :: rest
  | _ :: rest => firstDictList rest

/-- Article extraction of `search_knowledge_base` (server.py:237-260):
prefer the `articles` key, then `result`, then scan the response for the
first non-empty JSON list whose head is a dict. -/
def extractArticles (resp : Json) : List Json :=
  match resp with
  | .obj fields =>
      match dictGet fields "articles" with
      | some _ => jsonGetList resp "articles"
      | none =>
          match dictGet fields "result" with
          | some _ => jsonGetList resp "result"
          | none => firstDictList fields
  | _ => []

/-- The `search_knowledge_base` tool (server.py:183-348): obtain the
connection, call `list_articles`, require a successful client response,
extract the article list, sanitize each article's HTML fields, and answer
with the sanitized list and its count; every raise becomes the uniform
error response. -/
def search_knowledge_base (env : ServerEnv) (mkConn : Except String Nat)
    (api : SnowAPI) (s : Option Nat)
    (search_term category : Option String) (limit : Int) (ts : String) :
    Json × Option Nat :=
  match get_snow_connection env mkConn s with
  | .error e => (errorResult e ts, s)
  | .ok (_, s') =>
      match api.list_articles
          { limit := limit, offset := 0, query := search_term, category := category } with
      | .error e => (errorResult e ts, s')
      | .ok resp =>
          if !responseSuccess resp then
            (errorResult (responseMessage resp "Failed to search knowledge base") ts, s')
          else
            match sanitizeArticles (extractArticles resp) with
            | .error e => (errorResult e ts, s')
            | .ok sanitized =>
                (.obj [("success", .bool true),
                       ("count", .num sanitized.length),
                       ("articles", .arr sanitized),
                       ("timestamp", .str ts)], s')

/-- The `get_knowledge_article` tool (server.py:350-391): fetch one article
by id, require a successful client response and a truthy article payload
(`.get("article", {})`), and answer with the article. -/
def get_knowledge_article (env : ServerEnv) (mkConn : Except String Nat)
    (api : SnowAPI) (s : Option Nat) (article_id : String) (ts : String) :
    Json × Option Nat :=
  match get_snow_connection env mkConn s with
  | .error e => (errorResult e ts, s)
  | .ok (_, s') =>
      match api.get_article article_id with
      | .error e => (errorResult e ts, s')
      | .ok resp =>
          if !responseSuccess resp then
            (errorResult (responseMessage resp "Failed to retrieve knowledge article") ts, s')
          else
            let article := (jsonField resp "article").getD (.obj [])
            if !article.truthy then
              (errorResult ("Knowledge article " ++ article_id ++ " not found") ts, s')
            else
              (.obj [("success", .bool true),
                     ("article", article),
                     ("timestamp", .str ts)], s')

/-- An `os.getenv` result embedded into a JSON response value. -/
def optJson : Option String → Json
  | none => .null
  | some s => .str s

/-- The `test_connection` tool of server.py (393-439): with a connection
that has a `test_connection` method (the wrapper), that method's dict is
returned with a timestamp added (a non-dict result raises); otherwise the
original client's `get_table` is queried for one incident row and HTTP 200
is required. -/
def test_connection (env : ServerEnv) (mkConn : Except String Nat)
    (api : SnowAPI) (s : Option Nat) (ts : String) : Json × Option Nat :=
  match get_snow_connection env mkConn s with
  | .error e => (errorResult e ts, s)
  | .ok (_, s') =>
      if api.has_test_connection then
        match api.test_connection_result with
        | .error e => (errorResult e ts, s')
        | .ok r =>
            match r with
            | .obj fields => (.obj (dictSet fields "timestamp" (.str ts)), s')
            | _ => (errorResult "object does not support item assignment" ts, s')
      else
        match api.get_table "incident" 1 with
        | .error e => (errorResult e ts, s')
        | .ok (_, _, status) =>
            if status ≠ 200 then
              (errorResult ("Connection test failed: HTTP " ++ toString status) ts, s')
            else
              (.obj [("success", .bool true),
                     ("message", .str "ServiceNow connection is working"),
                     ("connection_details",
                       .obj [("instance_url", optJson env.instance_url),
                             ("username", optJson env.username)]),
                     ("timestamp", .str ts)], s')

/-! ## observability_snow_wrapper.py — the httpx wrapper client -/

/-- Outcome of one httpx request as seen through `raise_for_status`:
success (2xx/3xx), an `HTTPStatusError` carrying the response text and
status, or a `RequestError`/other exception carrying its message. -/
inductive HttpOutcome where
  | success (body : Json) (headers : Json) (status : Int)
  | statusError (text : String) (status : Int)
  | requestError (msg : String)

/-- Embedding of `ObservabilityServiceNowWrapper.get_table`
(observability_snow_wrapper.py:59-87): returns the parsed body, headers and
status on success; an HTTP error becomes `({"error": text}, {}, status)`
and any other exception becomes `({"error": msg}, {}, 500)` — this method
never raises. -/
def wrapper_get_table (o : HttpOutcome) : Json × Json × Int :=
  match o with
  | .success body headers status => (body, headers, status)
  | .statusError text status => (.obj [("error", .str text)], .obj [], status)
  | .requestError msg => (.obj [("error", .str msg)], .obj [], 500)

/-- The error text extracted at observability_snow_wrapper.py:178-183 for a
non-200 response (string values read exactly; other shapes fall back to
the default "Unauthorized"). -/
def wrapperErrorMessage (response_data : Json) : String :=
  match response_data with
  | .obj fields =>
      match dictGet fields "error" with
      | some (.obj sub) =>
          match dictGet sub "message" with
          | some (.str m) => m
          | _ => "Unauthorized"
      | some (.str e) => e
      | some _ => "Unauthorized"
      | none => "Unauthorized"
  | _ => "Unauthorized"

/-- Embedding of `ObservabilityServiceNowWrapper.test_connection`
(observability_snow_wrapper.py:153-196): one-row incident query; HTTP 200
yields a success dict, anything else a `{"success": False, "error": ...}`
dict with status details. -/
def wrapper_test_connection (o : HttpOutcome) (url username : String) : Json :=
  match wrapper_get_table o with
  | (response_data, _, status) =>
      if status = 200 then
        .obj [("success", .bool true),
              ("message", .str "ServiceNow connection is working with httpx wrapper"),
              ("connection_details",
                .obj [("instance_url", .str url),
                      ("username", .str username),
                      ("method", .str "httpx")])]
      else
        .obj [("success", .bool false),
              ("error", .str "Authentication failed - check username/password or instance URL"),
              ("status_code", .num status),
              ("details", .str ("ServiceNow returned " ++ toString status ++ ": "
                ++ wrapperErrorMessage response_data))]

/-! ## server_fastmcp.py — the JWT management tools -/

/-- A token embedded into a JSON response: the encoded JWT string is an
opaque value determined by the payload, key and algorithm, modelled by this
injective encoding. -/
def Token.toJson (t : Token) : Json :=
  .obj [("payload", .obj t.payload),
        ("sig_key", .str t.sig_key),
        ("sig_alg", .str t.sig_alg)]

/-- The `tokens` dict of `create_initial_tokens`/`refresh_token` as it
appears inside a tool response. -/
def TokenBundle.toJson (b : TokenBundle) : Json :=
  .obj [("access_token", b.access_token.toJson),
        ("refresh_token", b.refresh_token.toJson),
        ("token_type", .str b.token_type),
        ("expires_in", .num b.expires_in)]

/-- The `token_info` dict of `get_token_info` inside a tool response (the
isoformat strings are represented by their timestamps, `None` by null). -/
def TokenInfo.toJson (info : TokenInfo) : Json :=
  .obj [("username", info.username),
        ("token_type", info.token_type),
        ("instance_url", info.instance_url),
        ("issued_at", match info.issued_at with | some n => .num n | none => .null),
        ("expires_at", match info.expires_at with | some n => .num n | none => .null),
        ("is_expired", .bool info.is_expired),
        ("issuer", info.issuer),
        ("audience", info.audience)]

/-- The `generate_jwt_token` tool (server_fastmcp.py:274-331): resolve the
instance URL (argument `or` environment, Python truthiness), raise when it
is missing, and answer with the initial token bundle and usage notes. -/
def generate_jwt_token (cfg : JWTConfig) (username password : String)
    (instance_url env_instance_url : Option String) (now : Int)
    (ts : String) : Json :=
  let snow_instance := if optTruthy instance_url then instance_url
                       else env_instance_url
  if !optTruthy snow_instance then
    errorResult "ServiceNow instance URL is required" ts
  else
    let tokens := create_initial_tokens cfg username password
      (snow_instance.getD "") "e78a061f7cd346388b10be87a08a5a86" now
    .obj [("success", .bool true),
          ("message", .str "JWT tokens generated successfully"),
          ("tokens", tokens.toJson),
          ("usage_instructions",
            .obj [("access_token", .str "Set as SERVICENOW_JWT_TOKEN environment variable"),
                  ("refresh_token", .str "Store securely for token renewal"),
                  ("expires_in_hours", .num cfg.token_expiry_hours),
                  ("refresh_expires_in_days", .num cfg.refresh_token_expiry_days)]),
          ("timestamp", .str ts)]

/-- The `validate_jwt_token` tool (server_fastmcp.py:333-374): validate the
token, gather its introspection info, and answer with both; any raise
becomes the uniform error response. -/
def validate_jwt_token (cfg : JWTConfig) (t : Token) (now : Int)
    (ts : String) : Json :=
  match validate_token cfg t now with
  | .error e => errorResult e ts
  | .ok payload =>
      match get_token_info t now with
      | .error e => errorResult e ts
      | .ok info =>
          .obj [("success", .bool true),
                ("message", .str "JWT token is valid"),
                ("token_info", info.toJson),
                ("payload",
                  .obj [("username", (dictGet payload "sub").getD .null),
                        ("instance_url", (dictGet payload "snow_instance").getD .null),
                        ("token_type", (dictGet payload "type").getD .null),
                        ("issuer", (dictGet payload "iss").getD .null),
                        ("audience", (dictGet payload "aud").getD .null)]),
                ("timestamp", .str ts)]

/-- The `refresh_jwt_token` tool (server_fastmcp.py:376-412): refresh the
bundle via the auth manager; any raise becomes the uniform error
response. -/
def refresh_jwt_token (cfg : JWTConfig) (t : Token) (now : Int)
    (ts : String) : Json :=
  match refresh_token cfg t now with
  | .error e => errorResult e ts
  | .ok bundle =>
      .obj [("success", .bool true),
            ("message", .str "JWT tokens refreshed successfully"),
            ("tokens", bundle.toJson),
            ("usage_instructions",
              .obj [("access_token", .str "Update SERVICENOW_JWT_TOKEN environment variable"),
                    ("refresh_token", .str "Store the new refresh token securely"),
                    ("expires_in_hours", .num cfg.token_expiry_hours)]),
            ("timestamp", .str ts)]

/-- The `get_jwt_token_info` tool (server_fastmcp.py:414-445): introspect
the token without validation; any raise becomes the uniform error
response. -/
def get_jwt_token_info (t : Token) (now : Int) (ts : String) : Json :=
  match get_token_info t now with
  | .error e => errorResult e ts
  | .ok info =>
      .obj [("success", .bool true),
            ("token_info", info.toJson),
            ("timestamp", .str ts)]

/-! ## Tool registration -/

/-- The `@mcp.tool()` registrations of server_fastmcp.py (106-448), in
source order. -/
def fastmcpToolNames : List String :=
  ["get_servicenow_incidents", "search_knowledge_base",
   "get_knowledge_article", "generate_jwt_token", "validate_jwt_token",
   "refresh_jwt_token", "get_jwt_token_info", "test_connection"]

/-- The `@mcp.tool()` registrations of server.py (113-440), in source
order. -/
def serverPyToolNames : List String :=
  ["get_servicenow_incidents", "search_knowledge_base",
   "get_knowledge_article", "test_connection"]

/-! ## Theorems -/

/-- A concrete manager configuration used by the witnesses. -/
def sampleCfg : JWTConfig :=
  ⟨"secret", "HS256", 24, 30, "servicenow-mcp-server", "servicenow-api"⟩

/-- A concrete user info used by the witnesses. -/
def sampleUser : UserInfo :=
  ⟨.str "alice", .str "https://dev.service-now.com", .str "cid"⟩

/-- A concrete access token issued at time 0. -/
def sampleAccessToken : Token := generate_token sampleCfg sampleUser "access" 0

/-- A concrete refresh token issued at time 0. -/
def sampleRefreshToken : Token := generate_token sampleCfg sampleUser "refresh" 0

/-- The access token re-signed under a different key: same payload, wrong
signature. -/
def tamperedToken : Token :=
  { payload := sampleAccessToken.payload, sig_key := "wrong", sig_alg := "HS256" }

/-- A concrete, fully configured server environment. -/
def sampleEnv : ServerEnv :=
  ⟨some "https://dev.service-now.com", some "alice", some "pw", none, none⟩

/-- A concrete one-row incident table response. -/
def sampleIncidentsResponse : Json :=
  .obj [("result", .arr [.obj [("number", .str "INC0001")]])]

/-- A concrete knowledge article whose text holds HTML markup. -/
def sampleArticle : Json :=
  .obj [("text", .obj [("value", .str "<b>Hello</b> world")]),
        ("sys_id", .str "a1")]

/-- The concrete article after the sanitizer ran over it. -/
def sampleSanitizedArticle : Json :=
  .obj [("text", .obj [("value", .str "Hello world"),
                       ("display_value", .str "Hello world")]),
        ("sys_id", .str "a1")]

/-- A concrete successful `list_articles` response. -/
def sampleArticlesResponse : Json :=
  .obj [("success", .bool true), ("articles", .arr [sampleArticle])]

/-- A concrete vendor-client oracle whose calls all succeed. -/
def sampleApi : SnowAPI :=
  { get_table_with_offset := fun _ _ _ => .ok (sampleIncidentsResponse, 200),
    list_articles := fun _ => .ok sampleArticlesResponse,
    get_article := fun _ =>
      .ok (.obj [("success", .bool true),
                 ("article", .obj [("number", .str "KB0001")])]),
    has_test_connection := false,
    test_connection_result := .error "AttributeError",
    get_table := fun _ _ => .ok (.obj [], .obj [], 200) }

/-- C5: for every user_info and token_type, the payload `generate_token`
signs consists of exactly the eight claims `iss`, `aud`, `sub`, `iat`,
`exp`, `type`, `snow_instance`, `client_id` in that order, with `exp`
equal to `iat` plus `refresh_token_expiry_days` days (86400 s each) when
the token type is "refresh" and `iat` plus `token_expiry_hours` hours
(3600 s each) otherwise, and `generate_token` signs exactly this
payload. -/
theorem c5_payload_shape (cfg : JWTConfig) (user_info : UserInfo)
    (token_type : String) (now : Int) :
    (generatePayload cfg user_info token_type now).map Prod.fst =
      ["iss", "aud", "sub", "iat", "exp", "type", "snow_instance", "client_id"] ∧
    dictGet (generatePayload cfg user_info token_type now) "iat" = some (.num now) ∧
    dictGet (generatePayload cfg user_info token_type now) "exp" =
      some (.num (now + (if token_type = "refresh"
        then cfg.refresh_token_expiry_days * 86400
        else cfg.token_expiry_hours * 3600))) ∧
    (generate_token cfg user_info token_type now).payload =
      generatePayload cfg user_info token_type now :=
  ⟨rfl, by simp [generatePayload, dictGet], by simp [generatePayload, dictGet, expirySeconds], rfl⟩

/-- C9: `get_token_info` decodes without verifying the signature — its
result is the same whatever key and algorithm the token was signed with —
and when the payload carries no `exp` claim the reported `is_expired` is
true. -/
theorem c9_introspection_ignores_signature
    (p : List (String × Json)) (k₁ k₂ a₁ a₂ : String) (now : Int) :
    get_token_info ⟨p, k₁, a₁⟩ now = get_token_info ⟨p, k₂, a₂⟩ now ∧
    (∀ info, get_token_info ⟨p, k₁, a₁⟩ now = .ok info →
      dictGet p "exp" = none → info.is_expired = true) := by
  refine ⟨rfl, ?_⟩
  intro info h hnone
  have hexp : timestampField p "exp" = .ok none := by
    unfold timestampField
    rw [hnone]
  unfold get_token_info at h
  rw [hexp] at h
  cases hiat : timestampField p "iat" with
  | error e => rw [hiat] at h; cases h
  | ok i =>
      rw [hiat] at h
      cases h
      rfl

/-- Witness for C9 at a concrete payload without an `exp` claim. -/
theorem c9_witness :
    get_token_info ⟨[("sub", .str "u")], "k1", "HS256"⟩ 3 =
      get_token_info ⟨[("sub", .str "u")], "k2", "none"⟩ 3 ∧
    ({ username := .str "u", token_type := .null, instance_url := .null,
       issued_at := none, expires_at := none, is_expired := true,
       issuer := .null, audience := .null } : TokenInfo).is_expired = true := by
  refine ⟨(c9_introspection_ignores_signature [("sub", .str "u")] "k1" "k2" "HS256" "none" 3).1, ?_⟩
  exact (c9_introspection_ignores_signature [("sub", .str "u")] "k1" "k2" "HS256" "none" 3).2
    _ rfl rfl

/-- C1: a token generated by the manager validates successfully before its
expiry, returning the generated payload, whose `sub`, `snow_instance`,
`client_id`, `type`, `iss` and `aud` claims are the user info's username,
instance URL, client id, the requested token type, and the configured
issuer and audience. -/
theorem c1_token_round_trip (cfg : JWTConfig) (user_info : UserInfo)
    (token_type : String) (now later : Int)
    (htype : token_type = "access" ∨ token_type = "refresh")
    (hfresh : later ≤ now + expirySeconds cfg token_type) :
    validate_token cfg (generate_token cfg user_info token_type now) later =
      .ok (generatePayload cfg user_info token_type now) ∧
    dictGet (generatePayload cfg user_info token_type now) "sub" =
      some user_info.username ∧
    dictGet (generatePayload cfg user_info token_type now) "snow_instance" =
      some user_info.instance_url ∧
    dictGet (generatePayload cfg user_info token_type now) "client_id" =
      some user_info.client_id ∧
    dictGet (generatePayload cfg user_info token_type now) "type" =
      some (.str token_type) ∧
    dictGet (generatePayload cfg user_info token_type now) "iss" =
      some (.str cfg.issuer) ∧
    dictGet (generatePayload cfg user_info token_type now) "aud" =
      some (.str cfg.audience) := by
  have hnot : ¬ later > now + expirySeconds cfg token_type := not_lt.mpr hfresh
  refine ⟨?_, by simp [generatePayload, dictGet], by simp [generatePayload, dictGet],
    by simp [generatePayload, dictGet], by simp [generatePayload, dictGet],
    by simp [generatePayload, dictGet], by simp [generatePayload, dictGet]⟩
  simp [validate_token, jwtDecode, expRecheck, sigOk, issOk, audOk, audMatches,
    checkIat, checkNbf, checkExp, generate_token, generatePayload, dictGet, hnot]

/-- Witness for C1: a concrete access token validated 100 seconds after
issuance. -/
theorem c1_witness :
    (("access" : String) = "access" ∨ ("access" : String) = "refresh") ∧
    ((100 : Int) ≤ 0 + expirySeconds sampleCfg "access") ∧
    validate_token sampleCfg sampleAccessToken 100 =
      .ok (generatePayload sampleCfg sampleUser "access" 0) := by
  refine ⟨Or.inl rfl, by decide, ?_⟩
  exact (c1_token_round_trip sampleCfg sampleUser "access" 0 100
    (Or.inl rfl) (by decide)).1

/-- One registered timestamp claim is absent or a numeric timestamp. -/
def numericIfPresent (p : List (String × Json)) (key : String) : Bool :=
  match dictGet p key with
  | none => true
  | some (.num _) => true
  | some _ => false

/-- RFC-shaped tokens: the `iat`, `nbf` and `exp` claims, when present,
are numeric timestamps (NumericDate). -/
def timestampsWellFormed (p : List (String × Json)) : Bool :=
  numericIfPresent p "iat" && numericIfPresent p "nbf" &&
    numericIfPresent p "exp"

/-- The current time strictly exceeds the token's `exp` timestamp. -/
def isExpiredAt (p : List (String × Json)) (now : Int) : Prop :=
  ∃ e, dictGet p "exp" = some (.num e) ∧ now > e

/-- The token's `nbf` timestamp lies strictly in the future. -/
def isImmatureAt (p : List (String × Json)) (now : Int) : Prop :=
  ∃ n, dictGet p "nbf" = some (.num n) ∧ n > now

theorem checkIat_none_of (p : List (String × Json))
    (h : numericIfPresent p "iat" = true) : checkIat p = none := by
  unfold checkIat
  unfold numericIfPresent at h
  revert h
  cases hd : dictGet p "iat" with
  | none => intro h; rfl
  | some v => cases v <;> intro h <;> first | rfl | cases h

theorem checkNbf_cases (p : List (String × Json)) (now : Int)
    (h : numericIfPresent p "nbf" = true) :
    (checkNbf p now = none ∧ ¬ isImmatureAt p now) ∨
      (checkNbf p now = some .immatureSignature ∧ isImmatureAt p now) := by
  unfold checkNbf
  unfold numericIfPresent at h
  revert h
  cases hd : dictGet p "nbf" with
  | none =>
      intro h
      refine Or.inl ⟨rfl, ?_⟩
      rintro ⟨n, hn, _⟩
      rw [hd] at hn
      cases hn
  | some v =>
      cases v <;> intro h <;> try cases h
      rename_i n
      by_cases hgt : n > now
      · exact Or.inr ⟨by simp [hgt], ⟨n, hd, hgt⟩⟩
      · refine Or.inl ⟨by simp [hgt], ?_⟩
        rintro ⟨m, hm, hmgt⟩
        rw [hd] at hm
        injection hm with hm1
        injection hm1 with hm2
        omega

theorem checkExp_cases (p : List (String × Json)) (now : Int)
    (h : numericIfPresent p "exp" = true) :
    (checkExp p now = none ∧ ¬ isExpiredAt p now) ∨
      (checkExp p now = some .expiredSignature ∧ isExpiredAt p now) := by
  unfold checkExp
  unfold numericIfPresent at h
  revert h
  cases hd : dictGet p "exp" with
  | none =>
      intro h
      refine Or.inl ⟨rfl, ?_⟩
      rintro ⟨e, he, _⟩
      rw [hd] at he
      cases he
  | some v =>
      cases v <;> intro h <;> try cases h
      rename_i e
      by_cases hgt : now > e
      · exact Or.inr ⟨by simp [hgt], ⟨e, hd, hgt⟩⟩
      · refine Or.inl ⟨by simp [hgt], ?_⟩
        rintro ⟨f, hf, hfgt⟩
        rw [hd] at hf
        injection hf with hf1
        injection hf1 with hf2
        omega

theorem jwtDecode_ok_payload {cfg : JWTConfig} {t : Token} {now : Int}
    {p : List (String × Json)} (h : jwtDecode cfg t now = .ok p) :
    p = t.payload := by
  unfold jwtDecode at h
  repeat' split at h
  all_goals first
    | (cases h; rfl)
    | cases h

theorem expRecheck_error_or_ok (payload : List (String × Json)) (now : Int) :
    (∃ msg, expRecheck payload now = .error msg) ∨
      expRecheck payload now = .ok payload := by
  unfold expRecheck
  split
  · split
    · exact Or.inl ⟨_, rfl⟩
    · exact Or.inr rfl
  · exact Or.inr rfl

theorem expRecheck_of_not_expired (payload : List (String × Json)) (now : Int)
    (h : ¬ isExpiredAt payload now) : expRecheck payload now = .ok payload := by
  unfold expRecheck
  cases he : dictGet payload "exp" with
  | none => rfl
  | some v =>
      cases v with
      | num e =>
          have hng : ¬ (now > e) := fun hgt => h ⟨e, he, hgt⟩
          simp [hng]
      | null => rfl
      | bool b => rfl
      | str s => rfl
      | arr elems => rfl
      | obj fields => rfl

theorem validate_token_error_or_ok (cfg : JWTConfig) (t : Token) (now : Int) :
    (∃ msg, validate_token cfg t now = .error msg) ∨
      validate_token cfg t now = .ok t.payload := by
  cases hd : jwtDecode cfg t now with
  | error e =>
      exact Or.inl ⟨e.message, by unfold validate_token; rw [hd]⟩
  | ok p =>
      have hp : p = t.payload := jwtDecode_ok_payload hd
      subst hp
      have hv : validate_token cfg t now = expRecheck t.payload now := by
        unfold validate_token; rw [hd]
      rw [hv]
      exact expRecheck_error_or_ok t.payload now

theorem jwtDecode_ok_iff (cfg : JWTConfig) (t : Token) (now : Int)
    (hwf : timestampsWellFormed t.payload = true) :
    jwtDecode cfg t now = .ok t.payload ↔
      (sigOk cfg t = true ∧ audOk cfg t = true ∧ issOk cfg t = true ∧
        ¬ isExpiredAt t.payload now ∧ ¬ isImmatureAt t.payload now) := by
  have hw : (numericIfPresent t.payload "iat" = true ∧
      numericIfPresent t.payload "nbf" = true) ∧
      numericIfPresent t.payload "exp" = true := by
    simpa [timestampsWellFormed, Bool.and_eq_true] using hwf
  obtain ⟨⟨hiw, hnw⟩, hew⟩ := hw
  unfold jwtDecode
  cases hsig : sigOk cfg t with
  | false => simp
  | true =>
      rcases checkNbf_cases t.payload now hnw with ⟨hn, hni⟩ | ⟨hn, hi⟩
      · rcases checkExp_cases t.payload now hew with ⟨he, hne⟩ | ⟨he, hx⟩
        · cases hiss : issOk cfg t <;> cases haud : audOk cfg t <;>
            simp [checkIat_none_of t.payload hiw, hn, he, hni, hne]
        · simp [checkIat_none_of t.payload hiw, hn, he, hx]
      · simp [checkIat_none_of t.payload hiw, hn, hi]

theorem validate_token_ok_iff (cfg : JWTConfig) (t : Token) (now : Int)
    (hwf : timestampsWellFormed t.payload = true) :
    validate_token cfg t now = .ok t.payload ↔
      (sigOk cfg t = true ∧ audOk cfg t = true ∧ issOk cfg t = true ∧
        ¬ isExpiredAt t.payload now ∧ ¬ isImmatureAt t.payload now) := by
  constructor
  · intro h
    unfold validate_token at h
    apply (jwtDecode_ok_iff cfg t now hwf).mp
    cases hd : jwtDecode cfg t now with
    | error e => rw [hd] at h; cases h
    | ok p => rw [jwtDecode_ok_payload hd]
  · intro hconds
    have hd : jwtDecode cfg t now = .ok t.payload :=
      (jwtDecode_ok_iff cfg t now hwf).mpr hconds
    have hv : validate_token cfg t now = expRecheck t.payload now := by
      unfold validate_token; rw [hd]
    rw [hv]
    exact expRecheck_of_not_expired t.payload now hconds.2.2.2.1

/-- A token signed with the manager's key whose `iss` and `aud` match the
default configuration and whose only timestamp claim is a future `nbf`:
well-signed, matching and unexpired, yet the library raises
`ImmatureSignatureError` on it. -/
def immatureToken : Token :=
  { payload := [("iss", .str "servicenow-mcp-server"),
                ("aud", .str "servicenow-api"),
                ("nbf", .num 1000)],
    sig_key := "secret",
    sig_alg := "HS256" }

/-- C2 counterexample: a concrete well-signed token matching the
configured audience and issuer, carrying no `exp` claim (hence unexpired),
on which `validate_token` nevertheless raises — because its `nbf`
timestamp lies in the future.  The claim's "raises iff signature, aud/iss,
or expiry fails" is therefore false as stated. -/
theorem c2_counterexample :
    sigOk sampleCfg immatureToken = true ∧
    audOk sampleCfg immatureToken = true ∧
    issOk sampleCfg immatureToken = true ∧
    dictGet immatureToken.payload "exp" = none ∧
    dictGet immatureToken.payload "nbf" = some (.num 1000) ∧
    validate_token sampleCfg immatureToken 100 =
      .error "Invalid JWT token: The token is not yet valid (nbf)" :=
  ⟨rfl, rfl, rfl, rfl, rfl, rfl⟩

/-- C2 as amended: for every RFC-shaped token (numeric `iat`/`nbf`/`exp`
when present), `validate_token` raises exactly when the signature does not
verify under the manager's key and algorithm, the `aud` or `iss` claim
does not match the configured audience or issuer, the current time exceeds
the `exp` timestamp, or the token is not yet valid (its `nbf` timestamp
lies in the future); a well-signed, matching, unexpired, already-valid
token is accepted with its payload returned.  The strict expiry
comparison is the one the module's own re-check performs
(jwt_auth.py:114). -/
theorem c2_validate_boundary (cfg : JWTConfig) (t : Token) (now : Int)
    (hwf : timestampsWellFormed t.payload = true) :
    ((∃ msg, validate_token cfg t now = .error msg) ↔
      ¬ (sigOk cfg t = true ∧ audOk cfg t = true ∧ issOk cfg t = true ∧
          ¬ isExpiredAt t.payload now ∧ ¬ isImmatureAt t.payload now)) ∧
    ((sigOk cfg t = true ∧ audOk cfg t = true ∧ issOk cfg t = true ∧
        ¬ isExpiredAt t.payload now ∧ ¬ isImmatureAt t.payload now) →
      validate_token cfg t now = .ok t.payload) := by
  refine ⟨⟨?_, ?_⟩, (validate_token_ok_iff cfg t now hwf).mpr⟩
  · rintro ⟨msg, hmsg⟩ hconds
    have hok := (validate_token_ok_iff cfg t now hwf).mpr hconds
    rw [hmsg] at hok
    cases hok
  · intro hnc
    rcases validate_token_error_or_ok cfg t now with h | h
    · exact h
    · exact absurd ((validate_token_ok_iff cfg t now hwf).mp h) hnc

/-- Witness for C2: a concrete well-signed, matching, unexpired,
already-valid token is accepted. -/
theorem c2_witness :
    validate_token sampleCfg sampleAccessToken 100 =
      .ok sampleAccessToken.payload := by
  apply (c2_validate_boundary sampleCfg sampleAccessToken 100 rfl).2
  refine ⟨rfl, rfl, rfl, ?_, ?_⟩
  · rintro ⟨e, he, hgt⟩
    rw [show dictGet sampleAccessToken.payload "exp" = some (.num 86400) from rfl] at he
    injection he with h1
    injection h1 with h2
    omega
  · rintro ⟨n, hn, _⟩
    rw [show dictGet sampleAccessToken.payload "nbf" = none from rfl] at hn
    cases hn

/-- C8: `refresh_token` propagates validation failures, rejects any valid
token whose `type` claim is not "refresh" (issuing nothing), and for a
valid refresh token returns a bundle of a newly generated access token and
a newly generated refresh token carrying the same username, instance URL
and client id, with token_type "Bearer" and expires_in equal to
`token_expiry_hours * 3600` seconds. -/
theorem c8_refresh_requires_and_rotates (cfg : JWTConfig) (t : Token)
    (now : Int) :
    (∀ e, validate_token cfg t now = .error e →
      refresh_token cfg t now = .error ("Failed to refresh token: " ++ e)) ∧
    (∀ p, validate_token cfg t now = .ok p →
      dictGet p "type" ≠ some (.str "refresh") →
      refresh_token cfg t now =
        .error "Failed to refresh token: Invalid token type. Refresh token required.") ∧
    (∀ p, validate_token cfg t now = .ok p →
      dictGet p "type" = some (.str "refresh") →
      ∃ b, refresh_token cfg t now = .ok b ∧
        b.token_type = "Bearer" ∧
        b.expires_in = cfg.token_expiry_hours * 3600 ∧
        b.access_token = generate_token cfg
          ⟨(dictGet p "sub").getD .null, (dictGet p "snow_instance").getD .null,
            (dictGet p "client_id").getD .null⟩ "access" now ∧
        b.refresh_token = generate_token cfg
          ⟨(dictGet p "sub").getD .null, (dictGet p "snow_instance").getD .null,
            (dictGet p "client_id").getD .null⟩ "refresh" now ∧
        dictGet b.access_token.payload "sub" = some ((dictGet p "sub").getD .null) ∧
        dictGet b.access_token.payload "snow_instance" =
          some ((dictGet p "snow_instance").getD .null) ∧
        dictGet b.access_token.payload "client_id" =
          some ((dictGet p "client_id").getD .null) ∧
        dictGet b.access_token.payload "type" = some (.str "access") ∧
        dictGet b.refresh_token.payload "sub" = some ((dictGet p "sub").getD .null) ∧
        dictGet b.refresh_token.payload "snow_instance" =
          some ((dictGet p "snow_instance").getD .null) ∧
        dictGet b.refresh_token.payload "client_id" =
          some ((dictGet p "client_id").getD .null) ∧
        dictGet b.refresh_token.payload "type" = some (.str "refresh")) := by
  refine ⟨?_, ?_, ?_⟩
  · intro e he
    unfold refresh_token
    rw [he]
  · intro p hp hne
    have hv : refresh_token cfg t now = refreshFromPayload cfg p now := by
      unfold refresh_token; rw [hp]
    rw [hv]
    unfold refreshFromPayload
    split
    · rename_i heq
      exact absurd heq hne
    · rfl
  · intro p hp hty
    have hv : refresh_token cfg t now = refreshFromPayload cfg p now := by
      unfold refresh_token; rw [hp]
    rw [hv]
    unfold refreshFromPayload
    rw [hty]
    refine ⟨_, rfl, rfl, rfl, rfl, ?_⟩
    simp [generate_token, generatePayload, dictGet]

/-- Witness for C8: a concrete valid refresh token is rotated, and a
concrete valid access token is rejected. -/
theorem c8_witness :
    refresh_token sampleCfg sampleRefreshToken 100 =
      .ok { access_token := generate_token sampleCfg sampleUser "access" 100,
            refresh_token := generate_token sampleCfg sampleUser "refresh" 100,
            token_type := "Bearer",
            expires_in := sampleCfg.token_expiry_hours * 3600 } ∧
    refresh_token sampleCfg sampleAccessToken 100 =
      .error "Failed to refresh token: Invalid token type. Refresh token required." := by
  have hvr : validate_token sampleCfg sampleRefreshToken 100 =
      .ok sampleRefreshToken.payload := by
    apply (validate_token_ok_iff sampleCfg sampleRefreshToken 100 rfl).mpr
    refine ⟨rfl, rfl, rfl, ?_, ?_⟩
    · rintro ⟨e, he, hgt⟩
      rw [show dictGet sampleRefreshToken.payload "exp" = some (.num 2592000) from rfl] at he
      injection he with h1
      injection h1 with h2
      omega
    · rintro ⟨n, hn, _⟩
      rw [show dictGet sampleRefreshToken.payload "nbf" = none from rfl] at hn
      cases hn
  have hva : validate_token sampleCfg sampleAccessToken 100 =
      .ok sampleAccessToken.payload := by
    apply (validate_token_ok_iff sampleCfg sampleAccessToken 100 rfl).mpr
    refine ⟨rfl, rfl, rfl, ?_, ?_⟩
    · rintro ⟨e, he, hgt⟩
      rw [show dictGet sampleAccessToken.payload "exp" = some (.num 86400) from rfl] at he
      injection he with h1
      injection h1 with h2
      omega
    · rintro ⟨n, hn, _⟩
      rw [show dictGet sampleAccessToken.payload "nbf" = none from rfl] at hn
      cases hn
  constructor
  · obtain ⟨b, hb, h2, h3, hacc, href, hrest⟩ :=
      (c8_refresh_requires_and_rotates sampleCfg sampleRefreshToken 100).2.2
        sampleRefreshToken.payload hvr rfl
    obtain ⟨ba, br, bt, bei⟩ := b
    simp only at h2 h3 hacc href
    subst h2
    subst h3
    subst hacc
    subst href
    exact hb
  · exact (c8_refresh_requires_and_rotates sampleCfg sampleAccessToken 100).2.1
      sampleAccessToken.payload hva
      (by
        intro h
        rw [show dictGet sampleAccessToken.payload "type" = some (.str "access") from rfl] at h
        injection h with h1
        injection h1 with h2
        exact absurd h2 (by decide))

/-- C7: the tool surface registered by the full server entry point
(server_fastmcp.py) is exactly the eight tools of the claim — incident
query, knowledge-base search, article fetch, connection test, and token
issue/validate/refresh/introspect — with no duplicates; the reduced entry
point server.py registers the four ServiceNow tools, a subset of the same
surface. -/
theorem c7_tool_surface :
    fastmcpToolNames.toFinset =
      (["get_servicenow_incidents", "search_knowledge_base",
        "get_knowledge_article", "test_connection", "generate_jwt_token",
        "validate_jwt_token", "refresh_jwt_token",
        "get_jwt_token_info"] : List String).toFinset ∧
    serverPyToolNames.toFinset ⊆ fastmcpToolNames.toFinset ∧
    fastmcpToolNames.Nodup ∧ serverPyToolNames.Nodup := by
  refine ⟨by decide, ?_, by decide, by decide⟩
  intro x hx
  fin_cases hx <;> decide

theorem get_snow_connection_cached (env : ServerEnv)
    (mkConn : Except String Nat) (c : Nat) :
    get_snow_connection env mkConn (some c) = .ok (c, some c) := rfl

theorem get_snow_connection_stores (env : ServerEnv)
    (mkConn : Except String Nat) (c : Nat) (s' : Option Nat)
    (h : get_snow_connection env mkConn none = .ok (c, s')) :
    s' = some c ∧ mkConn = .ok c := by
  unfold get_snow_connection at h
  by_cases hc : (!(optTruthy env.instance_url && optTruthy env.username &&
      optTruthy env.password)) = true
  · rw [if_pos hc] at h
    cases h
  · rw [if_neg hc] at h
    cases hmk : mkConn with
    | error e => rw [hmk] at h; cases h
    | ok c₀ =>
        rw [hmk] at h
        cases h
        exact ⟨rfl, rfl⟩

theorem get_servicenow_incidents_state (env : ServerEnv)
    (mkConn : Except String Nat) (api : SnowAPI) (s : Option Nat)
    (state priority assignment_group caller_id : Option String)
    (limit : Int) (ts : String) :
    (get_servicenow_incidents env mkConn api s state priority
      assignment_group caller_id limit ts).2 = connStateAfter env mkConn s := by
  unfold get_servicenow_incidents connStateAfter
  cases h : get_snow_connection env mkConn s with
  | error e => rfl
  | ok p =>
      obtain ⟨c, s'⟩ := p
      cases hapi : api.get_table_with_offset "incident" limit
          (incidentExtraParams state priority assignment_group caller_id) with
      | error e => rfl
      | ok r =>
          obtain ⟨resp, status⟩ := r
          by_cases hst : status ≠ 200 <;> simp [hst]

theorem search_knowledge_base_state (env : ServerEnv)
    (mkConn : Except String Nat) (api : SnowAPI) (s : Option Nat)
    (search_term category : Option String) (limit : Int) (ts : String) :
    (search_knowledge_base env mkConn api s search_term category limit ts).2 =
      connStateAfter env mkConn s := by
  unfold search_knowledge_base connStateAfter
  cases h : get_snow_connection env mkConn s with
  | error e => rfl
  | ok p =>
      obtain ⟨c, s'⟩ := p
      cases hapi : api.list_articles
          { limit := limit, offset := 0, query := search_term, category := category } with
      | error e => rfl
      | ok resp =>
          by_cases hsu : responseSuccess resp
          · simp only [hsu]
            cases hm : sanitizeArticles (extractArticles resp) <;> simp
          · simp [hsu]

theorem get_knowledge_article_state (env : ServerEnv)
    (mkConn : Except String Nat) (api : SnowAPI) (s : Option Nat)
    (article_id : String) (ts : String) :
    (get_knowledge_article env mkConn api s article_id ts).2 =
      connStateAfter env mkConn s := by
  unfold get_knowledge_article connStateAfter
  cases h : get_snow_connection env mkConn s with
  | error e => rfl
  | ok p =>
      obtain ⟨c, s'⟩ := p
      cases hapi : api.get_article article_id with
      | error e => rfl
      | ok resp =>
          by_cases hsu : responseSuccess resp
          · simp only [hsu]
            by_cases ht : (((jsonField resp "article").getD (.obj []))).truthy <;>
              simp [ht]
          · simp [hsu]

theorem test_connection_state (env : ServerEnv)
    (mkConn : Except String Nat) (api : SnowAPI) (s : Option Nat)
    (ts : String) :
    (test_connection env mkConn api s ts).2 = connStateAfter env mkConn s := by
  unfold test_connection connStateAfter
  cases h : get_snow_connection env mkConn s with
  | error e => rfl
  | ok p =>
      obtain ⟨c, s'⟩ := p
      by_cases htc : api.has_test_connection
      · simp only [htc]
        cases hr : api.test_connection_result with
        | error e => rfl
        | ok r => cases r <;> rfl
      · simp only [htc]
        cases hg : api.get_table "incident" 1 with
        | error e => simp
        | ok r =>
            obtain ⟨body, rest⟩ := r
            obtain ⟨hdrs, status⟩ := rest
            by_cases hst : status ≠ 200 <;> simp [hst]

/-- C6: the ServiceNow connection handle is lazily initialized and single:
a stored handle is returned as-is by `get_snow_connection` (for any vendor
constructor — no new connection is built); a successful first call stores
exactly the constructed handle; and each of the four server.py tools
leaves the global in precisely the state `get_snow_connection` produced —
in particular an existing handle is never replaced. -/
theorem c6_lazy_connection (env : ServerEnv) (mkConn : Except String Nat)
    (api : SnowAPI) (s : Option Nat) (c : Nat)
    (st pr ag ci : Option String) (limit : Int) (q cat : Option String)
    (article_id ts : String) :
    (get_snow_connection env mkConn (some c) = .ok (c, some c)) ∧
    (∀ c' s', get_snow_connection env mkConn none = .ok (c', s') →
      s' = some c' ∧ mkConn = .ok c') ∧
    connStateAfter env mkConn (some c) = some c ∧
    (get_servicenow_incidents env mkConn api s st pr ag ci limit ts).2 =
      connStateAfter env mkConn s ∧
    (search_knowledge_base env mkConn api s q cat limit ts).2 =
      connStateAfter env mkConn s ∧
    (get_knowledge_article env mkConn api s article_id ts).2 =
      connStateAfter env mkConn s ∧
    (test_connection env mkConn api s ts).2 = connStateAfter env mkConn s :=
  ⟨get_snow_connection_cached env mkConn c,
   fun c' s' h => get_snow_connection_stores env mkConn c' s' h,
   rfl,
   get_servicenow_incidents_state env mkConn api s st pr ag ci limit ts,
   search_knowledge_base_state env mkConn api s q cat limit ts,
   get_knowledge_article_state env mkConn api s article_id ts,
   test_connection_state env mkConn api s ts⟩

theorem length_sanitizeArticles :
    ∀ (l l' : List Json), sanitizeArticles l = .ok l' →
      l'.length = l.length := by
  intro l
  induction l with
  | nil =>
      intro l' h
      cases h
      rfl
  | cons a as ih =>
      intro l' h
      unfold sanitizeArticles at h
      cases hfa : sanitizeArticle a with
      | error e => rw [hfa] at h; cases h
      | ok b =>
          rw [hfa] at h
          cases hm : sanitizeArticles as with
          | error e => rw [hm] at h; cases h
          | ok bs =>
              rw [hm] at h
              cases h
              simp [ih bs hm]

/-- C10: every successful response of `get_servicenow_incidents` (resp.
`search_knowledge_base`) carries a `count` equal to the length of its
`incidents` (resp. `articles`) list, and that length does not exceed the
requested limit whenever the underlying client honours the row limit
passed to it. -/
theorem c10_count_consistency (env : ServerEnv) (mkConn : Except String Nat)
    (api : SnowAPI) (s : Option Nat)
    (st pr ag ci q cat : Option String) (limit : Int) (ts : String) :
    (∀ r, r = (get_servicenow_incidents env mkConn api s st pr ag ci limit ts).1 →
      jsonField r "success" = some (.bool true) →
      ∃ xs, jsonField r "incidents" = some (.arr xs) ∧
        jsonField r "count" = some (.num xs.length) ∧
        ((∀ resp status,
            api.get_table_with_offset "incident" limit
              (incidentExtraParams st pr ag ci) = .ok (resp, status) →
            (jsonGetList resp "result").length ≤ limit.toNat) →
          xs.length ≤ limit.toNat)) ∧
    (∀ r, r = (search_knowledge_base env mkConn api s q cat limit ts).1 →
      jsonField r "success" = some (.bool true) →
      ∃ xs, jsonField r "articles" = some (.arr xs) ∧
        jsonField r "count" = some (.num xs.length) ∧
        ((∀ resp, api.list_articles
              { limit := limit, offset := 0, query := q, category := cat } = .ok resp →
            (extractArticles resp).length ≤ limit.toNat) →
          xs.length ≤ limit.toNat)) := by
  constructor
  · intro r hr hsucc
    subst hr
    unfold get_servicenow_incidents at hsucc ⊢
    cases h : get_snow_connection env mkConn s with
    | error e =>
        simp [errorResult, jsonField, dictGet, h] at hsucc
    | ok p =>
        obtain ⟨c, s'⟩ := p
        cases hapi : api.get_table_with_offset "incident" limit
            (incidentExtraParams st pr ag ci) with
        | error e =>
            simp [errorResult, jsonField, dictGet, h, hapi] at hsucc
        | ok res =>
            obtain ⟨resp, status⟩ := res
            by_cases hst : status = 200
            · subst hst
              refine ⟨jsonGetList resp "result",
                by simp [jsonField, dictGet, h, hapi],
                by simp [jsonField, dictGet, h, hapi], ?_⟩
              intro hcl
              exact hcl resp 200 rfl
            · simp [errorResult, jsonField, dictGet, h, hapi, hst] at hsucc
  · intro r hr hsucc
    subst hr
    unfold search_knowledge_base at hsucc ⊢
    cases h : get_snow_connection env mkConn s with
    | error e =>
        simp [errorResult, jsonField, dictGet, h] at hsucc
    | ok p =>
        obtain ⟨c, s'⟩ := p
        cases hapi : api.list_articles
            { limit := limit, offset := 0, query := q, category := cat } with
        | error e =>
            simp [errorResult, jsonField, dictGet, h, hapi] at hsucc
        | ok resp =>
            by_cases hsu : responseSuccess resp = true
            · cases hm : sanitizeArticles (extractArticles resp) with
              | error e =>
                  simp [errorResult, jsonField, dictGet, h, hapi, hsu, hm] at hsucc
              | ok sanitized =>
                  refine ⟨sanitized,
                    by simp [jsonField, dictGet, h, hapi, hsu, hm],
                    by simp [jsonField, dictGet, h, hapi, hsu, hm], ?_⟩
                  intro hcl
                  rw [length_sanitizeArticles _ _ hm]
                  exact hcl resp rfl
            · rw [Bool.not_eq_true] at hsu
              simp [errorResult, jsonField, dictGet, h, hapi, hsu] at hsucc

/-- A response dict reporting success. -/
def isSuccessResponse (j : Json) : Prop :=
  jsonField j "success" = some (.bool true)

/-- The uniform error shape `{"success": False, "error": <message>}`. -/
def isUniformErrorResponse (j : Json) : Prop :=
  ∃ msg, jsonField j "success" = some (.bool false) ∧
    jsonField j "error" = some (.str msg)

theorem errorResult_uniform (msg ts : String) :
    isUniformErrorResponse (errorResult msg ts) :=
  ⟨msg, rfl, rfl⟩

theorem dictGet_dictSet_ne (fields : List (String × Json)) (k key : String)
    (v : Json) (h : k ≠ key) :
    dictGet (dictSet fields key v) k = dictGet fields k := by
  induction fields with
  | nil => simp [dictSet, dictGet, Ne.symm h]
  | cons p rest ih =>
      obtain ⟨k', v'⟩ := p
      by_cases hk : k' = key
      · subst hk
        simp [dictSet, dictGet, Ne.symm h]
      · by_cases hkk : k' = k <;> simp [dictSet, dictGet, hk, hkk, ih, h]

theorem c3aux_incidents_shape (env : ServerEnv) (mkConn : Except String Nat)
    (api : SnowAPI) (s : Option Nat)
    (st pr ag ci : Option String) (limit : Int) (ts : String) :
    isSuccessResponse
        (get_servicenow_incidents env mkConn api s st pr ag ci limit ts).1 ∨
      isUniformErrorResponse
        (get_servicenow_incidents env mkConn api s st pr ag ci limit ts).1 := by
  unfold get_servicenow_incidents
  cases h : get_snow_connection env mkConn s with
  | error e => exact Or.inr (errorResult_uniform e ts)
  | ok p =>
      obtain ⟨c, s'⟩ := p
      cases hapi : api.get_table_with_offset "incident" limit
          (incidentExtraParams st pr ag ci) with
      | error e => exact Or.inr (errorResult_uniform e ts)
      | ok res =>
          obtain ⟨resp, status⟩ := res
          rcases eq_or_ne status 200 with hst | hst
          · subst hst
            exact Or.inl rfl
          · right
            simp only [if_pos hst]
            exact errorResult_uniform _ ts

theorem c3aux_skb_shape (env : ServerEnv) (mkConn : Except String Nat)
    (api : SnowAPI) (s : Option Nat) (q cat : Option String) (limit : Int)
    (ts : String) :
    isSuccessResponse (search_knowledge_base env mkConn api s q cat limit ts).1 ∨
      isUniformErrorResponse
        (search_knowledge_base env mkConn api s q cat limit ts).1 := by
  unfold search_knowledge_base
  cases h : get_snow_connection env mkConn s with
  | error e => exact Or.inr (errorResult_uniform e ts)
  | ok p =>
      obtain ⟨c, s'⟩ := p
      cases hapi : api.list_articles
          { limit := limit, offset := 0, query := q, category := cat } with
      | error e => exact Or.inr (errorResult_uniform e ts)
      | ok resp =>
          cases hsu : responseSuccess resp with
          | false =>
              right
              simp only [hsu, Bool.not_false, if_pos]
              exact errorResult_uniform _ ts
          | true =>
              simp only [hsu, Bool.not_true, Bool.false_eq_true, if_false]
              cases hm : sanitizeArticles (extractArticles resp) with
              | error e => exact Or.inr (errorResult_uniform e ts)
              | ok sanitized => exact Or.inl rfl

theorem c3aux_gka_shape (env : ServerEnv) (mkConn : Except String Nat)
    (api : SnowAPI) (s : Option Nat) (article_id ts : String) :
    isSuccessResponse (get_knowledge_article env mkConn api s article_id ts).1 ∨
      isUniformErrorResponse
        (get_knowledge_article env mkConn api s article_id ts).1 := by
  unfold get_knowledge_article
  cases h : get_snow_connection env mkConn s with
  | error e => exact Or.inr (errorResult_uniform e ts)
  | ok p =>
      obtain ⟨c, s'⟩ := p
      cases hapi : api.get_article article_id with
      | error e => exact Or.inr (errorResult_uniform e ts)
      | ok resp =>
          cases hsu : responseSuccess resp with
          | false =>
              right
              simp only [hsu, Bool.not_false, if_pos]
              exact errorResult_uniform _ ts
          | true =>
              simp only [hsu, Bool.not_true, Bool.false_eq_true, if_false]
              cases ht : ((jsonField resp "article").getD (.obj [])).truthy with
              | false =>
                  right
                  simp only [ht, Bool.not_false, if_pos]
                  exact errorResult_uniform _ ts
              | true =>
                  simp only [ht, Bool.not_true, Bool.false_eq_true, if_false]
                  exact Or.inl rfl

theorem c3aux_tc_shape (env : ServerEnv) (mkConn : Except String Nat)
    (api : SnowAPI) (s : Option Nat) (ts : String)
    (htc : ∀ j, api.test_connection_result = Except.ok j →
      isSuccessResponse j ∨ isUniformErrorResponse j) :
    isSuccessResponse (test_connection env mkConn api s ts).1 ∨
      isUniformErrorResponse (test_connection env mkConn api s ts).1 := by
  unfold test_connection
  cases h : get_snow_connection env mkConn s with
  | error e => exact Or.inr (errorResult_uniform e ts)
  | ok p =>
      obtain ⟨c, s'⟩ := p
      cases htcb : api.has_test_connection with
      | false =>
          simp only [htcb, Bool.false_eq_true, if_false]
          cases hg : api.get_table "incident" 1 with
          | error e => exact Or.inr (errorResult_uniform e ts)
          | ok r =>
              obtain ⟨body, hdrs, status⟩ := r
              rcases eq_or_ne status 200 with hst | hst
              · subst hst
                exact Or.inl rfl
              · right
                simp only [if_pos hst]
                exact errorResult_uniform _ ts
      | true =>
          simp only [htcb, if_pos]
          cases hr : api.test_connection_result with
          | error e => exact Or.inr (errorResult_uniform e ts)
          | ok r =>
              cases r with
              | obj fields =>
                  rcases htc _ hr with hok | ⟨msg, hm1, hm2⟩
                  · left
                    show dictGet (dictSet fields "timestamp" (.str ts)) "success" =
                      some (.bool true)
                    rw [dictGet_dictSet_ne fields "success" "timestamp" _ (by decide)]
                    exact hok
                  · right
                    refine ⟨msg, ?_, ?_⟩
                    · show dictGet (dictSet fields "timestamp" (.str ts)) "success" =
                        some (.bool false)
                      rw [dictGet_dictSet_ne fields "success" "timestamp" _ (by decide)]
                      exact hm1
                    · show dictGet (dictSet fields "timestamp" (.str ts)) "error" =
                        some (.str msg)
                      rw [dictGet_dictSet_ne fields "error" "timestamp" _ (by decide)]
                      exact hm2
              | null => exact Or.inr (errorResult_uniform _ ts)
              | bool b => exact Or.inr (errorResult_uniform _ ts)
              | num n => exact Or.inr (errorResult_uniform _ ts)
              | str sv => exact Or.inr (errorResult_uniform _ ts)
              | arr elems => exact Or.inr (errorResult_uniform _ ts)

theorem c3aux_gjt_shape (cfg : JWTConfig) (username password : String)
    (instance_url env_instance_url : Option String) (now : Int) (ts : String) :
    isSuccessResponse
        (generate_jwt_token cfg username password instance_url env_instance_url now ts) ∨
      isUniformErrorResponse
        (generate_jwt_token cfg username password instance_url env_instance_url now ts) := by
  unfold generate_jwt_token
  cases hu : optTruthy (if optTruthy instance_url then instance_url
      else env_instance_url) with
  | false =>
      right
      simp only [hu, Bool.not_false, if_pos]
      exact errorResult_uniform _ ts
  | true =>
      simp only [hu, Bool.not_true, Bool.false_eq_true, if_false]
      exact Or.inl rfl

theorem c3aux_vjt_shape (cfg : JWTConfig) (t : Token) (now : Int) (ts : String) :
    isSuccessResponse (validate_jwt_token cfg t now ts) ∨
      isUniformErrorResponse (validate_jwt_token cfg t now ts) := by
  unfold validate_jwt_token
  cases hv : validate_token cfg t now with
  | error e => exact Or.inr (errorResult_uniform e ts)
  | ok payload =>
      cases hi : get_token_info t now with
      | error e => exact Or.inr (errorResult_uniform e ts)
      | ok info => exact Or.inl rfl

theorem c3aux_rjt_shape (cfg : JWTConfig) (t : Token) (now : Int) (ts : String) :
    isSuccessResponse (refresh_jwt_token cfg t now ts) ∨
      isUniformErrorResponse (refresh_jwt_token cfg t now ts) := by
  unfold refresh_jwt_token
  cases hv : refresh_token cfg t now with
  | error e => exact Or.inr (errorResult_uniform e ts)
  | ok bundle => exact Or.inl rfl

theorem c3aux_gjti_shape (t : Token) (now : Int) (ts : String) :
    isSuccessResponse (get_jwt_token_info t now ts) ∨
      isUniformErrorResponse (get_jwt_token_info t now ts) := by
  unfold get_jwt_token_info
  cases hv : get_token_info t now with
  | error e => exact Or.inr (errorResult_uniform e ts)
  | ok info => exact Or.inl rfl

theorem c3aux_wrapper_tc_shape (o : HttpOutcome) (url username : String) :
    isSuccessResponse (wrapper_test_connection o url username) ∨
      isUniformErrorResponse (wrapper_test_connection o url username) := by
  unfold wrapper_test_connection
  cases o with
  | success body headers status =>
      simp only [wrapper_get_table]
      rcases eq_or_ne status 200 with hst | hst
      · subst hst
        simp only [if_pos]
        exact Or.inl rfl
      · rw [if_neg hst]
        exact Or.inr ⟨_, rfl, rfl⟩
  | statusError text status =>
      simp only [wrapper_get_table]
      rcases eq_or_ne status 200 with hst | hst
      · subst hst
        simp only [if_pos]
        exact Or.inl rfl
      · rw [if_neg hst]
        exact Or.inr ⟨_, rfl, rfl⟩
  | requestError msg =>
      simp only [wrapper_get_table]
      rw [if_neg (by decide : ¬ ((500 : Int) = 200))]
      exact Or.inr ⟨_, rfl, rfl⟩

theorem c3aux_incidents_err (env : ServerEnv) (mkConn : Except String Nat)
    (api : SnowAPI) (c : Nat) (st pr ag ci : Option String) (limit : Int)
    (ts e : String)
    (hapi : api.get_table_with_offset "incident" limit
      (incidentExtraParams st pr ag ci) = .error e) :
    (get_servicenow_incidents env mkConn api (some c) st pr ag ci limit ts).1 =
      errorResult e ts := by
  simp [get_servicenow_incidents, get_snow_connection, hapi]

theorem c3aux_skb_err (env : ServerEnv) (mkConn : Except String Nat)
    (api : SnowAPI) (c : Nat) (q cat : Option String) (limit : Int)
    (ts e : String)
    (hapi : api.list_articles
      { limit := limit, offset := 0, query := q, category := cat } = .error e) :
    (search_knowledge_base env mkConn api (some c) q cat limit ts).1 =
      errorResult e ts := by
  simp [search_knowledge_base, get_snow_connection, hapi]

theorem c3aux_gka_err (env : ServerEnv) (mkConn : Except String Nat)
    (api : SnowAPI) (c : Nat) (article_id ts e : String)
    (hapi : api.get_article article_id = .error e) :
    (get_knowledge_article env mkConn api (some c) article_id ts).1 =
      errorResult e ts := by
  simp [get_knowledge_article, get_snow_connection, hapi]

theorem c3aux_tc_err (env : ServerEnv) (mkConn : Except String Nat)
    (api : SnowAPI) (c : Nat) (ts e : String)
    (htcb : api.has_test_connection = true)
    (hr : api.test_connection_result = .error e) :
    (test_connection env mkConn api (some c) ts).1 = errorResult e ts := by
  simp [test_connection, get_snow_connection, htcb, hr]

theorem c3aux_gjt_err (cfg : JWTConfig) (username password : String)
    (instance_url env_instance_url : Option String) (now : Int) (ts : String)
    (hu : optTruthy (if optTruthy instance_url then instance_url
      else env_instance_url) = false) :
    generate_jwt_token cfg username password instance_url env_instance_url now ts =
      errorResult "ServiceNow instance URL is required" ts := by
  simp [generate_jwt_token, hu]

theorem c3aux_vjt_err (cfg : JWTConfig) (t : Token) (now : Int) (ts e : String)
    (hv : validate_token cfg t now = .error e) :
    validate_jwt_token cfg t now ts = errorResult e ts := by
  simp [validate_jwt_token, hv]

theorem c3aux_rjt_err (cfg : JWTConfig) (t : Token) (now : Int) (ts e : String)
    (hv : refresh_token cfg t now = .error e) :
    refresh_jwt_token cfg t now ts = errorResult e ts := by
  simp [refresh_jwt_token, hv]

theorem c3aux_gjti_err (t : Token) (now : Int) (ts e : String)
    (hv : get_token_info t now = .error e) :
    get_jwt_token_info t now ts = errorResult e ts := by
  simp [get_jwt_token_info, hv]

theorem c3aux_incidents_succ (env : ServerEnv) (mkConn : Except String Nat)
    (api : SnowAPI) (c : Nat) (st pr ag ci : Option String) (limit : Int)
    (ts : String) (resp : Json)
    (hapi : api.get_table_with_offset "incident" limit
      (incidentExtraParams st pr ag ci) = .ok (resp, 200)) :
    isSuccessResponse
      (get_servicenow_incidents env mkConn api (some c) st pr ag ci limit ts).1 := by
  simp [get_servicenow_incidents, get_snow_connection, hapi,
    isSuccessResponse, jsonField, dictGet]

theorem c3aux_skb_succ (env : ServerEnv) (mkConn : Except String Nat)
    (api : SnowAPI) (c : Nat) (q cat : Option String) (limit : Int)
    (ts : String) (resp : Json) (sanitized : List Json)
    (hapi : api.list_articles
      { limit := limit, offset := 0, query := q, category := cat } = .ok resp)
    (hsu : responseSuccess resp = true)
    (hm : sanitizeArticles (extractArticles resp) = .ok sanitized) :
    isSuccessResponse
      (search_knowledge_base env mkConn api (some c) q cat limit ts).1 := by
  simp [search_knowledge_base, get_snow_connection, hapi, hsu, hm,
    isSuccessResponse, jsonField, dictGet]

theorem c3aux_gka_succ (env : ServerEnv) (mkConn : Except String Nat)
    (api : SnowAPI) (c : Nat) (article_id ts : String) (resp : Json)
    (hapi : api.get_article article_id = .ok resp)
    (hsu : responseSuccess resp = true)
    (ht : ((jsonField resp "article").getD (.obj [])).truthy = true) :
    isSuccessResponse
      (get_knowledge_article env mkConn api (some c) article_id ts).1 := by
  have h1 : (get_knowledge_article env mkConn api (some c) article_id ts).1 =
      .obj [("success", .bool true),
            ("article", (jsonField resp "article").getD (.obj [])),
            ("timestamp", .str ts)] := by
    simp [get_knowledge_article, get_snow_connection, hapi, hsu, ht]
  rw [isSuccessResponse, h1]
  simp [jsonField, dictGet]

theorem c3aux_tc_succ (env : ServerEnv) (mkConn : Except String Nat)
    (api : SnowAPI) (c : Nat) (ts : String) (fields : List (String × Json))
    (htcb : api.has_test_connection = true)
    (hr : api.test_connection_result = .ok (.obj fields))
    (hsf : dictGet fields "success" = some (.bool true)) :
    isSuccessResponse (test_connection env mkConn api (some c) ts).1 := by
  have : (test_connection env mkConn api (some c) ts).1 =
      .obj (dictSet fields "timestamp" (.str ts)) := by
    simp [test_connection, get_snow_connection, htcb, hr]
  rw [isSuccessResponse, this]
  show dictGet (dictSet fields "timestamp" (.str ts)) "success" =
    some (.bool true)
  rw [dictGet_dictSet_ne fields "success" "timestamp" _ (by decide)]
  exact hsf

theorem c3aux_gjt_succ (cfg : JWTConfig) (username password : String)
    (instance_url env_instance_url : Option String) (now : Int) (ts : String)
    (hu : optTruthy (if optTruthy instance_url then instance_url
      else env_instance_url) = true) :
    isSuccessResponse
      (generate_jwt_token cfg username password instance_url env_instance_url now ts) := by
  simp [generate_jwt_token, hu, isSuccessResponse, jsonField, dictGet]

theorem c3aux_vjt_succ (cfg : JWTConfig) (t : Token) (now : Int) (ts : String)
    (p : List (String × Json)) (info : TokenInfo)
    (hv : validate_token cfg t now = .ok p)
    (hi : get_token_info t now = .ok info) :
    isSuccessResponse (validate_jwt_token cfg t now ts) := by
  simp [validate_jwt_token, hv, hi, isSuccessResponse, jsonField, dictGet]

theorem c3aux_rjt_succ (cfg : JWTConfig) (t : Token) (now : Int) (ts : String)
    (bundle : TokenBundle) (hv : refresh_token cfg t now = .ok bundle) :
    isSuccessResponse (refresh_jwt_token cfg t now ts) := by
  simp [refresh_jwt_token, hv, isSuccessResponse, jsonField, dictGet]

theorem c3aux_gjti_succ (t : Token) (now : Int) (ts : String)
    (info : TokenInfo) (hv : get_token_info t now = .ok info) :
    isSuccessResponse (get_jwt_token_info t now ts) := by
  simp [get_jwt_token_info, hv, isSuccessResponse, jsonField, dictGet]

/-- C3: every modelled MCP tool converts any raise of its underlying
operation into the uniform `{"success": False, "error": <message>}`
response rather than propagating it, and reports `"success": True` when
the operation succeeds.  The statement groups, per tool: the response
always carries the uniform shape; when the underlying client or auth call
raises with message `e`, the response is exactly `errorResult e ts`; when
it succeeds, the response reports success.  (The wrapper's
`test_connection` is included: its dicts also carry the uniform shape.) -/
theorem c3_uniform_error_shape (env : ServerEnv) (mkConn : Except String Nat)
    (api : SnowAPI) (s : Option Nat) (c : Nat)
    (st pr ag ci q cat instance_url env_instance_url : Option String)
    (limit : Int) (article_id ts username password : String)
    (cfg : JWTConfig) (t : Token) (now : Int) (o : HttpOutcome)
    (wurl wuser : String)
    (htc : ∀ j, api.test_connection_result = Except.ok j →
      isSuccessResponse j ∨ isUniformErrorResponse j) :
    ((isSuccessResponse
        (get_servicenow_incidents env mkConn api s st pr ag ci limit ts).1 ∨
      isUniformErrorResponse
        (get_servicenow_incidents env mkConn api s st pr ag ci limit ts).1) ∧
     (∀ e, api.get_table_with_offset "incident" limit
        (incidentExtraParams st pr ag ci) = .error e →
        (get_servicenow_incidents env mkConn api (some c) st pr ag ci limit ts).1 =
          errorResult e ts) ∧
     (∀ resp, api.get_table_with_offset "incident" limit
        (incidentExtraParams st pr ag ci) = .ok (resp, 200) →
        isSuccessResponse
          (get_servicenow_incidents env mkConn api (some c) st pr ag ci limit ts).1)) ∧
    ((isSuccessResponse (search_knowledge_base env mkConn api s q cat limit ts).1 ∨
      isUniformErrorResponse
        (search_knowledge_base env mkConn api s q cat limit ts).1) ∧
     (∀ e, api.list_articles
        { limit := limit, offset := 0, query := q, category := cat } = .error e →
        (search_knowledge_base env mkConn api (some c) q cat limit ts).1 =
          errorResult e ts) ∧
     (∀ resp sanitized, api.list_articles
        { limit := limit, offset := 0, query := q, category := cat } = .ok resp →
        responseSuccess resp = true →
        sanitizeArticles (extractArticles resp) = .ok sanitized →
        isSuccessResponse
          (search_knowledge_base env mkConn api (some c) q cat limit ts).1)) ∧
    ((isSuccessResponse (get_knowledge_article env mkConn api s article_id ts).1 ∨
      isUniformErrorResponse
        (get_knowledge_article env mkConn api s article_id ts).1) ∧
     (∀ e, api.get_article article_id = .error e →
        (get_knowledge_article env mkConn api (some c) article_id ts).1 =
          errorResult e ts)) ∧
    ((isSuccessResponse (test_connection env mkConn api s ts).1 ∨
      isUniformErrorResponse (test_connection env mkConn api s ts).1) ∧
     (∀ e, api.has_test_connection = true →
        api.test_connection_result = .error e →
        (test_connection env mkConn api (some c) ts).1 = errorResult e ts)) ∧
    ((isSuccessResponse
        (generate_jwt_token cfg username password instance_url env_instance_url now ts) ∨
      isUniformErrorResponse
        (generate_jwt_token cfg username password instance_url env_instance_url now ts)) ∧
     (optTruthy (if optTruthy instance_url then instance_url
        else env_instance_url) = false →
        generate_jwt_token cfg username password instance_url env_instance_url now ts =
          errorResult "ServiceNow instance URL is required" ts) ∧
     (optTruthy (if optTruthy instance_url then instance_url
        else env_instance_url) = true →
        isSuccessResponse
          (generate_jwt_token cfg username password instance_url env_instance_url now ts))) ∧
    ((isSuccessResponse (validate_jwt_token cfg t now ts) ∨
      isUniformErrorResponse (validate_jwt_token cfg t now ts)) ∧
     (∀ e, validate_token cfg t now = .error e →
        validate_jwt_token cfg t now ts = errorResult e ts) ∧
     (∀ p info, validate_token cfg t now = .ok p → get_token_info t now = .ok info →
        isSuccessResponse (validate_jwt_token cfg t now ts))) ∧
    ((isSuccessResponse (refresh_jwt_token cfg t now ts) ∨
      isUniformErrorResponse (refresh_jwt_token cfg t now ts)) ∧
     (∀ e, refresh_token cfg t now = .error e →
        refresh_jwt_token cfg t now ts = errorResult e ts) ∧
     (∀ bundle, refresh_token cfg t now = .ok bundle →
        isSuccessResponse (refresh_jwt_token cfg t now ts))) ∧
    ((isSuccessResponse (get_jwt_token_info t now ts) ∨
      isUniformErrorResponse (get_jwt_token_info t now ts)) ∧
     (∀ e, get_token_info t now = .error e →
        get_jwt_token_info t now ts = errorResult e ts) ∧
     (∀ info, get_token_info t now = .ok info →
        isSuccessResponse (get_jwt_token_info t now ts))) ∧
    (isSuccessResponse (wrapper_test_connection o wurl wuser) ∨
      isUniformErrorResponse (wrapper_test_connection o wurl wuser)) := by
  exact ⟨⟨c3aux_incidents_shape env mkConn api s st pr ag ci limit ts,
      fun e he => c3aux_incidents_err env mkConn api c st pr ag ci limit ts e he,
      fun resp hresp => c3aux_incidents_succ env mkConn api c st pr ag ci limit ts resp hresp⟩,
    ⟨c3aux_skb_shape env mkConn api s q cat limit ts,
      fun e he => c3aux_skb_err env mkConn api c q cat limit ts e he,
      fun resp sanitized hresp hsu hm =>
        c3aux_skb_succ env mkConn api c q cat limit ts resp sanitized hresp hsu hm⟩,
    ⟨c3aux_gka_shape env mkConn api s article_id ts,
      fun e he => c3aux_gka_err env mkConn api c article_id ts e he⟩,
    ⟨c3aux_tc_shape env mkConn api s ts htc,
      fun e htcb hr => c3aux_tc_err env mkConn api c ts e htcb hr⟩,
    ⟨c3aux_gjt_shape cfg username password instance_url env_instance_url now ts,
      fun hu => c3aux_gjt_err cfg username password instance_url env_instance_url now ts hu,
      fun hu => c3aux_gjt_succ cfg username password instance_url env_instance_url now ts hu⟩,
    ⟨c3aux_vjt_shape cfg t now ts,
      fun e hv => c3aux_vjt_err cfg t now ts e hv,
      fun p info hv hi => c3aux_vjt_succ cfg t now ts p info hv hi⟩,
    ⟨c3aux_rjt_shape cfg t now ts,
      fun e hv => c3aux_rjt_err cfg t now ts e hv,
      fun bundle hv => c3aux_rjt_succ cfg t now ts bundle hv⟩,
    ⟨c3aux_gjti_shape t now ts,
      fun e hv => c3aux_gjti_err t now ts e hv,
      fun info hv => c3aux_gjti_succ t now ts info hv⟩,
    c3aux_wrapper_tc_shape o wurl wuser⟩

/-- Witness for C6: the cached handle is returned unchanged, a first call
stores what it constructed, and a tool call leaves the stored state as
`get_snow_connection` produced it. -/
theorem c6_witness :
    get_snow_connection sampleEnv (.ok 7) (some 3) = .ok (3, some 3) ∧
    ((some 7 : Option Nat) = some 7 ∧ (Except.ok 7 : Except String Nat) = .ok 7) ∧
    (get_servicenow_incidents sampleEnv (.ok 7) sampleApi (some 3)
      none none none none 20 "T").2 = connStateAfter sampleEnv (.ok 7) (some 3) := by
  refine ⟨(c6_lazy_connection sampleEnv (.ok 7) sampleApi (some 3) 3
      none none none none 20 none none "KB" "T").1, ?_,
    (c6_lazy_connection sampleEnv (.ok 7) sampleApi (some 3) 3
      none none none none 20 none none "KB" "T").2.2.2.1⟩
  exact (c6_lazy_connection sampleEnv (.ok 7) sampleApi none 7
    none none none none 20 none none "KB" "T").2.1 7 (some 7) rfl

/-- Witness for C10 at the concrete sample oracle: one incident and one
article, counts equal to one, within the limits. -/
theorem c10_witness :
    jsonField (get_servicenow_incidents sampleEnv (.ok 7) sampleApi (some 3)
      none none none none 20 "T").1 "count" = some (.num 1) ∧
    (1 : Nat) ≤ (20 : Int).toNat ∧
    jsonField (search_knowledge_base sampleEnv (.ok 7) sampleApi (some 3)
      none none 10 "T").1 "count" = some (.num 1) := by
  obtain ⟨xs, h1, h2, h3⟩ :=
    (c10_count_consistency sampleEnv (.ok 7) sampleApi (some 3)
      none none none none none none 20 "T").1 _ rfl rfl
  obtain ⟨ys, g1, g2, g3⟩ :=
    (c10_count_consistency sampleEnv (.ok 7) sampleApi (some 3)
      none none none none none none 10 "T").2 _ rfl rfl
  have hx : some (Json.arr [Json.obj [("number", Json.str "INC0001")]]) =
      some (.arr xs) := by rw [← h1]; rfl
  injection hx with hx1
  injection hx1 with hx2
  have hy : some (Json.arr [sampleSanitizedArticle]) = some (.arr ys) := by
    rw [← g1]; rfl
  injection hy with hy1
  injection hy1 with hy2
  subst hx2
  subst hy2
  refine ⟨by simpa using h2, ?_, by simpa using g2⟩
  have hb := h3 ?_
  · exact hb
  · intro resp status hres
    cases hres
    decide

/-- Witness for C3: a concrete tool invocation on a healthy client reports
success, and a tampered token produces exactly the uniform error
response. -/
theorem c3_witness :
    isSuccessResponse (get_servicenow_incidents sampleEnv (.ok 7) sampleApi
      (some 3) none none none none 20 "T").1 ∧
    validate_jwt_token sampleCfg tamperedToken 100 "T" =
      errorResult "Invalid JWT token: Signature verification failed" "T" := by
  have H := c3_uniform_error_shape sampleEnv (.ok 7) sampleApi (some 3) 3
    none none none none none none none none 20 "KB" "T" "alice" "pw"
    sampleCfg tamperedToken 100 (.requestError "down") "https://x" "alice"
    (fun j hj => by cases hj)
  exact ⟨H.1.2.2 sampleIncidentsResponse rfl,
    H.2.2.2.2.2.1.2.1 "Invalid JWT token: Signature verification failed" rfl⟩

/-- C4 counterexample: the ServiceNow client returned an article whose
`text.value` is "<b>Hello</b> world", but the `search_knowledge_base`
response carries "Hello world" in that field — the body is not passed
through unchanged. -/
theorem c4_counterexample :
    sampleApi.list_articles { limit := 10, offset := 0, query := none, category := none } =
      .ok sampleArticlesResponse ∧
    jsonField sampleArticlesResponse "articles" = some (.arr [sampleArticle]) ∧
    (jsonField sampleArticle "text").getD .null =
      .obj [("value", .str "<b>Hello</b> world")] ∧
    jsonField (search_knowledge_base sampleEnv (.ok 7) sampleApi (some 3)
      none none 10 "T").1 "articles" = some (.arr [sampleSanitizedArticle]) ∧
    (jsonField sampleSanitizedArticle "text").getD .null =
      .obj [("value", .str "Hello world"), ("display_value", .str "Hello world")] ∧
    ("Hello world" : String) ≠ "<b>Hello</b> world" :=
  ⟨rfl, rfl, rfl, rfl, rfl, by decide⟩

theorem sanitizeField_preserves (fields fields' : List (String × Json))
    (name : String) (maxLen : Nat)
    (h : sanitizeField fields name maxLen = .ok fields')
    (k : String) (hk : k ≠ name) :
    dictGet fields' k = dictGet fields k := by
  unfold sanitizeField at h
  repeat' split at h
  all_goals first
    | (cases h; rfl)
    | (cases h; exact dictGet_dictSet_ne fields k name _ hk)
    | cases h

theorem sanitizeArticleFields_preserves (fields fields' : List (String × Json))
    (h : sanitizeArticleFields fields = .ok fields') (k : String)
    (h1 : k ≠ "text") (h2 : k ≠ "short_description")
    (h3 : k ≠ "meta_description") (h4 : k ≠ "description") :
    dictGet fields' k = dictGet fields k := by
  unfold sanitizeArticleFields at h
  split at h
  · cases h
  · rename_i f1 hf1
    split at h
    · cases h
    · rename_i f2 hf2
      split at h
      · cases h
      · rename_i f3 hf3
        split at h
        · cases h
        · rename_i f4 hf4
          cases h
          calc dictGet fields' k
              = dictGet f3 k := sanitizeField_preserves f3 fields' _ _ hf4 k h4
            _ = dictGet f2 k := sanitizeField_preserves f2 f3 _ _ hf3 k h3
            _ = dictGet f1 k := sanitizeField_preserves f1 f2 _ _ hf2 k h2
            _ = dictGet fields k := sanitizeField_preserves fields f1 _ _ hf1 k h1

theorem sanitizeArticle_preserves (a a' : Json)
    (h : sanitizeArticle a = .ok a') (key : String)
    (hk : key ∉ sanitizedFieldNames) :
    jsonField a' key = jsonField a key := by
  simp [sanitizedFieldNames] at hk
  obtain ⟨h1, h2, h3, h4⟩ := hk
  cases a with
  | obj fields =>
      cases hf4 : sanitizeArticleFields fields with
      | error e =>
          have he : sanitizeArticle (.obj fields) = .error e := by
            show (match sanitizeArticleFields fields with
                  | Except.error e => Except.error e
                  | Except.ok f4 => Except.ok (Json.obj f4)) = Except.error e
            rw [hf4]
          rw [he] at h
          cases h
      | ok f4 =>
          have he : sanitizeArticle (.obj fields) = .ok (.obj f4) := by
            show (match sanitizeArticleFields fields with
                  | Except.error e => Except.error e
                  | Except.ok f4 => Except.ok (Json.obj f4)) =
              Except.ok (Json.obj f4)
            rw [hf4]
          rw [he] at h
          cases h
          show dictGet f4 key = dictGet fields key
          exact sanitizeArticleFields_preserves fields f4 hf4 key h1 h2 h3 h4
  | null => cases h; rfl
  | bool b => cases h; rfl
  | num n => cases h; rfl
  | str s => cases h; rfl
  | arr elems => cases h; rfl

/-- C4 amended: on the success path, `search_knowledge_base` returns the
client's articles with each article's `text`, `short_description`,
`meta_description` and `description` fields sanitized (HTML entities
unescaped, tags stripped, whitespace collapsed, control characters
removed, content truncated); every field outside those four is passed
through unchanged, and non-dict articles pass through whole. -/
theorem c4_sanitized_passthrough (env : ServerEnv)
    (mkConn : Except String Nat) (api : SnowAPI) (s : Option Nat)
    (q cat : Option String) (limit : Int) (ts : String) (c : Nat)
    (resp : Json) (sanitized : List Json)
    (hconn : s = some c)
    (hresp : api.list_articles
      { limit := limit, offset := 0, query := q, category := cat } = .ok resp)
    (hsucc : responseSuccess resp = true)
    (hsan : sanitizeArticles (extractArticles resp) = .ok sanitized) :
    jsonField (search_knowledge_base env mkConn api s q cat limit ts).1
      "articles" = some (.arr sanitized) ∧
    (∀ a a', sanitizeArticle a = .ok a' →
      ∀ key, key ∉ sanitizedFieldNames → jsonField a' key = jsonField a key) ∧
    (∀ a a', sanitizeArticle a = .ok a' →
      (∀ fields, a ≠ .obj fields) → a' = a) := by
  refine ⟨?_, fun a a' h key hk => sanitizeArticle_preserves a a' h key hk, ?_⟩
  · subst hconn
    simp [search_knowledge_base, get_snow_connection, hresp, hsucc, hsan,
      jsonField, dictGet]
  · intro a a' h hno
    cases a with
    | obj fields => exact absurd rfl (hno fields)
    | null => cases h; rfl
    | bool b => cases h; rfl
    | num n => cases h; rfl
    | str s => cases h; rfl
    | arr elems => cases h; rfl

/-- Witness for C4's amended theorem at the concrete sample response: the
sanitized article is returned and its untouched `sys_id` field equals the
original's. -/
theorem c4_amended_witness :
    jsonField (search_knowledge_base sampleEnv (.ok 7) sampleApi (some 3)
      none none 10 "T").1 "articles" = some (.arr [sampleSanitizedArticle]) ∧
    jsonField sampleSanitizedArticle "sys_id" = jsonField sampleArticle "sys_id" := by
  have H := c4_sanitized_passthrough sampleEnv (.ok 7) sampleApi (some 3)
    none none 10 "T" 3 sampleArticlesResponse [sampleSanitizedArticle]
    rfl rfl rfl rfl
  exact ⟨H.1, H.2.1 sampleArticle sampleSanitizedArticle rfl "sys_id" (by decide)⟩

end SnowMCP
